import Mathlib

/-!
# Trigger / sound interaction model of `src/js/main.js`

A shallow embedding of the stateful part of the simulator: the global
`sounds` record, the `scene.metadata.triggers` array, the sound instances
created by `loadSoundCollection`, the intersection handlers registered by
`configureTriggerActionsForController`, and the two button handlers of
`createControllerUI`.

JavaScript objects that are shared by reference (sound instances, meshes) live
in two stores of the state and are referred to by their index. Positions,
rotations and the audio options of a sound are floating-point rendering data
and are left out; nothing in the modelled control flow reads them.
-/

namespace VAT

/-! ## Plain JavaScript objects used as string-keyed maps -/

/-- Own-property lookup `obj[key]`; `none` stands for `undefined`. Names that
a JavaScript object inherits from `Object.prototype` (`constructor`,
`toString`, ...) are not own properties and are not modelled: the program
only looks up the keys of `SOUND_COLLECTIONS` and `lung`, `heart`,
`crackles`. -/
def objGet {α : Type} : List (String × α) → String → Option α
  | [], _ => none
  | (k, v) :: rest, key => if k = key then some v else objGet rest key

/-- Assignment `obj[key] = v`: an existing key keeps its place, a new key is
appended (insertion order). -/
def objSet {α : Type} : List (String × α) → String → α → List (String × α)
  | [], key, v => [(key, v)]
  | (k, w) :: rest, key, v =>
      if k = key then (k, v) :: rest else (k, w) :: objSet rest key v

/-- The values of an object in property order: `Object.values(obj)`. -/
def objValues {α : Type} (obj : List (String × α)) : List α :=
  obj.map (fun e => e.2)

/-- The keys of an object in property order: `Object.keys(obj)`. -/
def objKeys {α : Type} (obj : List (String × α)) : List String :=
  obj.map (fun e => e.1)

/-! ## Data model -/

/-- One entry of a collection: `{ url, name }`. -/
structure SoundData where
  url : String
  name : String
deriving DecidableEq, Repr

/-- The constant `SOUND_COLLECTIONS` (lines 13-42). -/
def SOUND_COLLECTIONS : List (String × List (String × SoundData)) :=
  [ ("normal",
      [ ("lung", { url := "assets/audio/Bronchial.mp3", name := "Normal Bronchial" }),
        ("heart", { url := "assets/audio/Normal_heart.mp3", name := "Normal Heart" }),
        ("crackles", { url := "assets/audio/Crackles_Fine.mp3", name := "Fine Crackles" }) ]),
    ("intermediate",
      [ ("lung", { url := "assets/audio/Bronchial.mp3", name := "Normal Bronchial" }),
        ("heart", { url := "assets/audio/Third_heart.mp3", name := "Third Heart" }),
        ("crackles",
          { url := "assets/audio/Crackles_Late_Inspiratory.mp3",
            name := "Late Inspiratory Crackles" }) ]) ]

/-- A sound instance (`new BABYLON.Sound(name, url, ...)`), with the flags the
program reads or that its calls change. -/
structure Sound where
  name : String
  url : String
  isPlaying : Bool
  disposed : Bool
  attachedMesh : Option Nat
deriving DecidableEq, Repr

/-- A sphere mesh created by `createTriggerPoints`; `parent` is the handle of
the imported model. -/
structure Mesh where
  name : String
  parent : Option Nat
  isVisible : Bool
deriving DecidableEq, Repr

/-- An element of `scene.metadata.triggers`:
`{ trigger, sound, isIntersecting }`; `trigger` and `sound` are references. -/
structure TriggerData where
  trigger : Nat
  sound : Option Nat
  isIntersecting : Bool
deriving DecidableEq, Repr

/-- The calls made on sound instances, in the order they are issued. -/
inductive Call where
  | play (sound : Nat)
  | stop (sound : Nat)
  | dispose (sound : Nat)
  | attachToMesh (sound : Nat) (mesh : Nat)
deriving DecidableEq, Repr

/-- The mutable state of the program: the globals `triggersVisible`, `sounds`
and `currentlyPlayingText`, the closure variables of `createControllerUI`,
`scene.metadata.triggers`, the two object stores, and the trace of calls made
on sound instances. -/
structure State where
  triggersVisible : Bool
  activeCollection : String
  soundObjects : List (String × Nat)
  currentlyPlayingText : Option String
  visibilityText : Option String
  soundText : Option String
  currentCollectionIndex : Nat
  triggers : List TriggerData
  meshes : List Mesh
  instances : List Sound
  calls : List Call
deriving DecidableEq, Repr

/-- The state when the script has been evaluated (lines 8-49) and `createScene`
has set `scene.metadata`. -/
def initialState : State :=
  { triggersVisible := false
    activeCollection := "normal"
    soundObjects := []
    currentlyPlayingText := none
    visibilityText := none
    soundText := none
    currentCollectionIndex := 0
    triggers := []
    meshes := []
    instances := []
    calls := [] }

/-! ## Audio primitives of the host engine -/

/-- The `isPlaying` property of the instance `id`. -/
def isPlaying (s : State) (id : Nat) : Bool :=
  match s.instances[id]? with
  | some snd => snd.isPlaying
  | none => false

/-- The instance `id` has been disposed. -/
def isDisposed (s : State) (id : Nat) : Bool :=
  match s.instances[id]? with
  | some snd => snd.disposed
  | none => false

/-- Modelled from the spec: `SoundHandle.play()` of the host engine, which is
not part of the repository. Playback starts on a live handle; on a disposed
handle the call is a no-op (section 4.3). The call itself is traced. -/
def play (s : State) (id : Nat) : State :=
  let s1 := { s with calls := s.calls ++ [Call.play id] }
  match s1.instances[id]? with
  | some snd =>
      if snd.disposed then s1
      else { s1 with instances := s1.instances.set id { snd with isPlaying := true } }
  | none => s1

/-- Modelled from the spec: `SoundHandle.stop()` of the host engine, which is
not part of the repository. Playback ends on a live handle; on a disposed
handle the call is a no-op (section 4.3). The call itself is traced. -/
def stop (s : State) (id : Nat) : State :=
  let s1 := { s with calls := s.calls ++ [Call.stop id] }
  match s1.instances[id]? with
  | some snd =>
      if snd.disposed then s1
      else { s1 with instances := s1.instances.set id { snd with isPlaying := false } }
  | none => s1

/-- Modelled from the spec: `SoundHandle.dispose()` of the host engine, which
is not part of the repository: the handle's resources are released. -/
def dispose (s : State) (id : Nat) : State :=
  let s1 := { s with calls := s.calls ++ [Call.dispose id] }
  match s1.instances[id]? with
  | some snd => { s1 with instances := s1.instances.set id { snd with disposed := true } }
  | none => s1

/-- Modelled from the spec: `attachToMesh(mesh)` of the host engine, which is
not part of the repository: the instance records the mesh it follows. -/
def attachToMesh (s : State) (id : Nat) (mesh : Nat) : State :=
  let s1 := { s with calls := s.calls ++ [Call.attachToMesh id mesh] }
  match s1.instances[id]? with
  | some snd =>
      { s1 with instances := s1.instances.set id { snd with attachedMesh := some mesh } }
  | none => s1

/-! ## Sound handling (lines 164-253) -/

/-- The body of `updateTriggerSounds`'s switch: the sound key of a trigger
index; `none` is `soundKey` left `undefined`. -/
def soundKeyOfIndex : Nat → Option String
  | 0 => some "lung"
  | 1 => some "heart"
  | 2 => some "crackles"
  | _ => none

/-- One iteration of the `forEach` of `updateTriggerSounds` (lines 229-252). -/
def updateTrigger (s : State) (index : Nat) : State :=
  match s.triggers[index]? with
  | none => s
  | some triggerData =>
    match soundKeyOfIndex index with
    | none => s
    | some soundKey =>
      match objGet s.soundObjects soundKey with
      | none => s
      | some newSound =>
        let s1 :=
          match triggerData.sound with
          | some old => if isPlaying s old then stop s old else s
          | none => s
        let s2 :=
          { s1 with triggers := s1.triggers.set index { triggerData with sound := some newSound } }
        attachToMesh s2 newSound triggerData.trigger

/-- The function `updateTriggerSounds` (lines 224-253). `scene.metadata.triggers`
is always an array, so the early return is never taken. -/
def updateTriggerSounds (s : State) : State :=
  (List.range s.triggers.length).foldl updateTrigger s

/-- One iteration of the first loop of `loadSoundCollection` (lines 171-174):
the instance is stopped if it plays, then disposed. -/
def disposeSound (s : State) (sound : Nat) : State :=
  dispose (if isPlaying s sound then stop s sound else s) sound

/-- The first loop of `loadSoundCollection` (lines 170-175), over
`Object.values(sounds.soundObjects)`. -/
def disposeSounds (s : State) : State :=
  (objValues s.soundObjects).foldl disposeSound s

/-- The promise executor of `loadSoundCollection` (lines 184-209): a new
instance is created (not playing, `autoplay: false`) and stored under `key`. -/
def createSound (s : State) (key : String) (soundData : SoundData) : State :=
  { s with
    instances := s.instances ++
      [{ name := soundData.name, url := soundData.url, isPlaying := false,
         disposed := false, attachedMesh := none }]
    soundObjects := objSet s.soundObjects key s.instances.length }

/-- How the promise returned by `loadSoundCollection` settles. -/
inductive LoadResult where
  | resolved (value : Bool)
  | rejected
deriving DecidableEq, Repr

/-- The part of `loadSoundCollection` that runs synchronously, up to
`await Promise.all(loadPromises)` (lines 169-210), over a table of collections
`table` (the program's table is `SOUND_COLLECTIONS`). The second component is
the collection whose loads are awaited; `none` means `table[collectionName]`
is `undefined` and `Object.entries` has thrown. -/
def loadSoundCollectionStart (table : List (String × List (String × SoundData)))
    (s : State) (collectionName : String) : State × Option (List (String × SoundData)) :=
  let s1 := disposeSounds s
  let s2 := { s1 with soundObjects := [], activeCollection := collectionName }
  match objGet table collectionName with
  | none => (s2, none)
  | some collection =>
      (collection.foldl (fun st e => createSound st e.1 e.2) s2, some collection)

/-- The part of `loadSoundCollection` that runs once `Promise.all` has settled
(lines 212-220): `allLoaded` tells whether it was fulfilled. -/
def loadSoundCollectionResume (s : State) (allLoaded : Bool) : State × LoadResult :=
  if allLoaded then (updateTriggerSounds s, LoadResult.resolved true)
  else (s, LoadResult.resolved false)

/-- The function `loadSoundCollection` (lines 168-221) over a table of
collections, when nothing else runs while it awaits. `loads url` tells whether
the resource `url` loads. -/
def loadSoundCollectionIn (table : List (String × List (String × SoundData)))
    (loads : String → Bool) (s : State) (collectionName : String) : State × LoadResult :=
  match loadSoundCollectionStart table s collectionName with
  | (s1, none) => (s1, LoadResult.rejected)
  | (s1, some collection) =>
      loadSoundCollectionResume s1 (collection.all (fun e => loads e.2.url))

/-- The function `loadSoundCollection` (lines 168-221) of the program, whose
table is `SOUND_COLLECTIONS`. -/
def loadSoundCollection (loads : String → Bool) (s : State) (collectionName : String) :
    State × LoadResult :=
  loadSoundCollectionIn SOUND_COLLECTIONS loads s collectionName

/-! ## Trigger points (lines 287-341) -/

/-- One of the three blocks of `createTriggerPoints`: the sphere is created
with `isVisible = triggersVisible`, and registered only when `soundObjects`
has a sound under `key`. -/
def createTriggerPoint (s : State) (importedMesh : Nat) (soundObjects : List (String × Nat))
    (meshName : String) (key : String) : State :=
  let trigger := s.meshes.length
  let s1 :=
    { s with
      meshes := s.meshes ++
        [{ name := meshName, parent := some importedMesh, isVisible := s.triggersVisible }] }
  match objGet soundObjects key with
  | none => s1
  | some sound =>
      let s2 := attachToMesh s1 sound trigger
      { s2 with
        triggers := s2.triggers ++
          [{ trigger := trigger, sound := some sound, isIntersecting := false }] }

/-- The function `createTriggerPoints` (lines 287-341). -/
def createTriggerPoints (s : State) (importedMesh : Nat) (soundObjects : List (String × Nat)) :
    State :=
  let s1 := createTriggerPoint s importedMesh soundObjects "trigger1" "lung"
  let s2 := createTriggerPoint s1 importedMesh soundObjects "trigger2" "heart"
  createTriggerPoint s2 importedMesh soundObjects "trigger3" "crackles"

/-! ## Intersection handlers (lines 383-440) -/

/-- The function `updateCurrentlyPlayingText` (lines 436-440). -/
def updateCurrentlyPlayingText (s : State) (text : String) : State :=
  match s.currentlyPlayingText with
  | some _ => { s with currentlyPlayingText := some ("Currently: " ++ text) }
  | none => s

/-- The enter action registered by `configureTriggerActionsForController`
for the trigger at `index` (lines 403-410). It does not read the controller. -/
def enterAction (s : State) (index : Nat) : State :=
  match s.triggers[index]? with
  | none => s
  | some triggerData =>
    match triggerData.sound with
    | none => s
    | some sound =>
      match s.instances[sound]? with
      | none => s
      | some snd =>
          if !snd.isPlaying then updateCurrentlyPlayingText (play s sound) snd.name else s

/-- The exit action registered by `configureTriggerActionsForController`
for the trigger at `index` (lines 423-430). It does not read the controller. -/
def exitAction (s : State) (index : Nat) : State :=
  match s.triggers[index]? with
  | none => s
  | some triggerData =>
    match triggerData.sound with
    | none => s
    | some sound =>
      match s.instances[sound]? with
      | none => s
      | some snd =>
          if snd.isPlaying then updateCurrentlyPlayingText (stop s sound) "No sound playing"
          else s

/-- An intersection event delivered by the engine for a (controller, trigger)
pair. -/
inductive Event where
  | enter (controller : Nat) (trigger : Nat)
  | exit (controller : Nat) (trigger : Nat)
deriving DecidableEq, Repr

/-- The handler run for one intersection event. -/
def handle (s : State) : Event → State
  | Event.enter _ trigger => enterAction s trigger
  | Event.exit _ trigger => exitAction s trigger

/-- Events are processed one after the other, each to completion. -/
def run (s : State) (events : List Event) : State :=
  events.foldl handle s

/-! ## Controller UI (lines 448-517) -/

/-- The text of the visibility button. -/
def visibilityLabel (visible : Bool) : String :=
  if visible then "Hide Triggers" else "Show Triggers"

/-- The state-changing part of `createControllerUI`: the three text blocks and
the collection index are initialised. -/
def createControllerUI (s : State) : State :=
  { s with
    visibilityText := some (visibilityLabel s.triggersVisible)
    currentCollectionIndex := 0
    soundText := some ("Sound: " ++ (objKeys SOUND_COLLECTIONS).getD 0 "")
    currentlyPlayingText := some "Currently: No sound playing" }

/-- The assignment `trigger.isVisible = v` on the mesh `mesh`. -/
def setVisible (s : State) (mesh : Nat) (v : Bool) : State :=
  match s.meshes[mesh]? with
  | some m => { s with meshes := s.meshes.set mesh { m with isVisible := v } }
  | none => s

/-- The handler of the visibility button (lines 467-473). -/
def visibilityButtonPress (s : State) : State :=
  let s1 := { s with triggersVisible := !s.triggersVisible }
  let s2 := { s1 with visibilityText := some (visibilityLabel s1.triggersVisible) }
  s2.triggers.foldl (fun st triggerData => setVisible st triggerData.trigger s2.triggersVisible) s2

/-- The handler of the sound button (lines 488-493) when nothing else runs
while it awaits. -/
def soundButtonPress (loads : String → Bool) (s : State) : State × LoadResult :=
  let collections := objKeys SOUND_COLLECTIONS
  let index := (s.currentCollectionIndex + 1) % collections.length
  let newCollection := collections.getD index ""
  let s1 := { s with currentCollectionIndex := index, soundText := some ("Sound: " ++ newCollection) }
  loadSoundCollection loads s1 newCollection

/-! ## Start-up -/

/-- The state once the initial collection has loaded, the model has loaded
(`createTriggerPoints` with the current `sounds.soundObjects`) and the XR
experience has created the controller UI. -/
def startedState : State :=
  let s1 := (loadSoundCollection (fun _ => true) initialState initialState.activeCollection).1
  let s2 := createControllerUI s1
  createTriggerPoints s2 0 s2.soundObjects

/-! ## Vocabulary of the statements -/

/-- The trigger at `index` is bound to the instance `sound`, whose record in
the store is `snd`. -/
def BoundTo (s : State) (index : Nat) (sound : Nat) (snd : Sound) : Prop :=
  (∃ td, s.triggers[index]? = some td ∧ td.sound = some sound) ∧ s.instances[sound]? = some snd


/-- The trigger an intersection event is about. -/
def Event.trigger : Event → Nat
  | Event.enter _ t => t
  | Event.exit _ t => t

/-- The event is an enter event. -/
def Event.isEnter : Event → Bool
  | Event.enter _ _ => true
  | Event.exit _ _ => false

/-- Whether the controller of a single (controller, trigger) pair intersects
the trigger after the events: the most recent event was an enter. -/
def intersecting (events : List Event) : Bool :=
  match events.getLast? with
  | some e => e.isEnter
  | none => false

/-- The play (`true`) and stop (`false`) calls of a trace that were made on
the instance `sound`, in order. -/
def playStopCalls (sound : Nat) (log : List Call) : List Bool :=
  log.filterMap (fun c =>
    match c with
    | Call.play id => if id = sound then some true else none
    | Call.stop id => if id = sound then some false else none
    | _ => none)

/-- The calls strictly alternate; the first one is a play exactly when
`expectPlay`. -/
def alternates : Bool → List Bool → Bool
  | _, [] => true
  | expectPlay, b :: rest => (b == expectPlay) && alternates (!expectPlay) rest

/-- The fields of the state that no call on a sound instance touches. -/
def State.rest (s : State) :
    Bool × String × List (String × Nat) × Option String × Option String × Option String × Nat ×
      List TriggerData × List Mesh :=
  (s.triggersVisible, s.activeCollection, s.soundObjects, s.currentlyPlayingText,
    s.visibilityText, s.soundText, s.currentCollectionIndex, s.triggers, s.meshes)

/-- The name and url an instance was created with. -/
def soundInfo (s : State) (id : Nat) : Option (String × String) :=
  (s.instances[id]?).map (fun x => (x.name, x.url))

/-- What one iteration of `updateTriggerSounds` does to the record of the
trigger at `index`: it is rebound when `soundObjects` has a sound under the
key of that index, and left as it is otherwise. -/
def rebound (soundObjects : List (String × Nat)) (index : Nat) (td : TriggerData) : TriggerData :=
  match (soundKeyOfIndex index).bind (objGet soundObjects) with
  | some newSound => { td with sound := some newSound }
  | none => td

/-- A freshly constructed instance for an entry of a collection. -/
def newSound (soundData : SoundData) : Sound :=
  { name := soundData.name, url := soundData.url, isPlaying := false, disposed := false,
    attachedMesh := none }

/-- The fields of the state other than the trigger records, the instance
store and the trace. -/
def State.globals (s : State) :
    Bool × String × List (String × Nat) × Option String × Option String × Option String × Nat ×
      List Mesh :=
  (s.triggersVisible, s.activeCollection, s.soundObjects, s.currentlyPlayingText,
    s.visibilityText, s.soundText, s.currentCollectionIndex, s.meshes)

/-- A call of the rebinding phase: a stop or an `attachToMesh`. -/
def Call.isRebinding : Call → Bool
  | Call.stop _ => true
  | Call.attachToMesh _ _ => true
  | _ => false

/-- The step from `s` to `t` leaves the globals alone, creates and disposes no
instance, and issues only stop and `attachToMesh` calls. -/
def Rebinds (s t : State) : Prop :=
  t.globals = s.globals ∧ t.instances.length = s.instances.length ∧
  (∀ j, soundInfo t j = soundInfo s j) ∧ (∀ j, isDisposed t j = isDisposed s j) ∧
  ∃ new, t.calls = s.calls ++ new ∧ ∀ c ∈ new, c.isRebinding = true

/-- The key of the sound a sphere is created for by `createTriggerPoints`
(`trigger1` with `soundObjects.lung`, and so on). -/
def keyOfMeshName (meshName : String) : Option String :=
  if meshName = "trigger1" then some "lung"
  else if meshName = "trigger2" then some "heart"
  else if meshName = "trigger3" then some "crackles"
  else none

/-- The registered triggers are the three spheres of `createTriggerPoints`, in
the order it pushes them: what it leaves when `soundObjects` has `lung`,
`heart` and `crackles`. -/
def CreatedFromFull (s : State) : Prop :=
  s.triggers.map (fun td => (s.meshes[td.trigger]?).map (fun m => m.name)) =
    [some "trigger1", some "trigger2", some "trigger3"]

instance (s : State) : Decidable (CreatedFromFull s) := by
  unfold CreatedFromFull
  infer_instance

/-- The object `sounds.soundObjects` built by a load of a collection with the
keys `lung`, `heart`, `crackles` when the store held `n` instances before. -/
def fullObjects (n : Nat) : List (String × Nat) :=
  [("lung", n), ("heart", n + 1), ("crackles", n + 2)]

/-- Every registered trigger is bound to the instance that `sounds.soundObjects`
holds under the key its sphere was created for; that instance is not disposed
and was made from the entry of the collection `name` for that key. -/
def BoundToCollection (t : State) (name : String) : Prop :=
  ∀ (i : Nat) (td : TriggerData), t.triggers[i]? = some td →
    ∃ (m : Mesh) (key : String) (id : Nat) (collection : List (String × SoundData))
      (data : SoundData),
      t.meshes[td.trigger]? = some m ∧
      keyOfMeshName m.name = some key ∧
      objGet SOUND_COLLECTIONS name = some collection ∧
      objGet collection key = some data ∧
      objGet t.soundObjects key = some id ∧
      td.sound = some id ∧
      soundInfo t id = some (data.name, data.url) ∧
      isDisposed t id = false

/-- The order the spec asks of a collection switch: within the calls `log` of
one switch, every stop or dispose call on a previous instance (one of `old`)
comes after every `attachToMesh` call of the rebinding. -/
def DisposeAfterRebinding (old : List Nat) (log : List Call) : Prop :=
  ∀ (i j id snd mesh : Nat),
    (log[i]? = some (Call.dispose id) ∨ log[i]? = some (Call.stop id)) → id ∈ old →
    log[j]? = some (Call.attachToMesh snd mesh) → j < i

/-- The table of the example of section 8 of the spec: the collection `normal`
has no `crackles` entry. -/
def partialTable : List (String × List (String × SoundData)) :=
  [ ("normal",
      [ ("lung", { url := "assets/audio/Bronchial.mp3", name := "Normal Bronchial" }),
        ("heart", { url := "assets/audio/Normal_heart.mp3", name := "Normal Heart" }) ]) ]

/-- The started state after a successful load of `normal` from `partialTable`. -/
def afterPartialLoad : State :=
  (loadSoundCollectionIn partialTable (fun _ => true) startedState "normal").1

/-- Every registered trigger's sphere has `isVisible` equal to
`triggersVisible`. -/
def VisibleInv (s : State) : Prop :=
  ∀ td ∈ s.triggers, ∀ m, s.meshes[td.trigger]? = some m → m.isVisible = s.triggersVisible

/-- Two overlapping calls: `loadSoundCollection(a)` runs up to its `await`,
`loadSoundCollection(b)` is then invoked and runs up to its own `await`, and
the two continuations run afterwards, one after the other. A continuation's
effect depends only on whether its `Promise.all` was fulfilled, so the two
orders are covered by the two flags: `first` for the continuation that runs
first, `second` for the other one. -/
def interleaved (s : State) (a b : String) (first second : Bool) : State :=
  let s1 := (loadSoundCollectionStart SOUND_COLLECTIONS s a).1
  let s2 := (loadSoundCollectionStart SOUND_COLLECTIONS s1 b).1
  let s3 := (loadSoundCollectionResume s2 first).1
  (loadSoundCollectionResume s3 second).1


/-- The text of the label when no sound plays: what `createControllerUI` sets
(line 503) and what the exit action writes through
`updateCurrentlyPlayingText` (line 428). -/
def idleText : String := "Currently: No sound playing"

/-- The sound bound to a trigger record is playing. -/
def boundPlaying (s : State) (td : TriggerData) : Bool :=
  match td.sound with
  | some id => isPlaying s id
  | none => false

/-- The bound sound of some registered trigger is playing. -/
def anyPlaying (s : State) : Bool :=
  s.triggers.any (boundPlaying s)

/-- The sound bound to a trigger record, if any, is an instance of the store
that is not disposed. -/
def boundLive (s : State) (td : TriggerData) : Bool :=
  match td.sound with
  | some id =>
    match s.instances[id]? with
    | some snd => !snd.disposed
    | none => false
  | none => true

/-- Every registered trigger's bound sound is live. -/
def liveBindings (s : State) : Bool :=
  s.triggers.all (boundLive s)

/-- A table whose collection `normal` has no `lung` entry. -/
def noLungTable : List (String × List (String × SoundData)) :=
  [ ("normal",
      [ ("heart", { url := "assets/audio/Normal_heart.mp3", name := "Normal Heart" }),
        ("crackles", { url := "assets/audio/Crackles_Fine.mp3", name := "Fine Crackles" }) ]) ]

/-- The start-up of `startedState`, but with the initial collection loaded
from `noLungTable`: `createTriggerPoints` receives a `sounds.soundObjects`
that has `heart` and `crackles` only. -/
def startedWithoutLung : State :=
  let s1 := (loadSoundCollectionIn noLungTable (fun _ => true) initialState "normal").1
  let s2 := createControllerUI s1
  createTriggerPoints s2 0 s2.soundObjects

/-- The name of the sphere of the trigger registered at `index`. -/
def meshNameAt (s : State) (index : Nat) : Option String :=
  (s.triggers[index]?).bind (fun td => (s.meshes[td.trigger]?).map (fun m => m.name))

/-- The name and url of the sound bound to the trigger registered at `index`. -/
def boundInfoAt (s : State) (index : Nat) : Option (String × String) :=
  (s.triggers[index]?).bind (fun td => td.sound.bind (soundInfo s))

/-- The started state while a call `loadSoundCollection(scene, "intermediate")`
awaits its loads: the part of the call before the `await` has run. -/
def awaitingSwitch : State :=
  (loadSoundCollectionStart SOUND_COLLECTIONS startedState "intermediate").1

/-- The started state after a call `loadSoundCollection(scene, "intermediate")`
in which no sound loads. -/
def failedSwitch : State :=
  (loadSoundCollection (fun _ => false) startedState "intermediate").1

/-- The state in which the model finishes loading at start-up: the initial
collection has loaded and the controller UI exists, and no trigger does. -/
def uiState : State :=
  createControllerUI
    (loadSoundCollection (fun _ => true) initialState initialState.activeCollection).1

/-- The tasks the event loop runs once the triggers exist, each to completion:
the handler of an intersection event, the handler of the visibility button,
the part of a call of `loadSoundCollection` before its `await`, and the
continuation of such a call (`allLoaded` tells whether `Promise.all` was
fulfilled). -/
inductive Action where
  | event (e : Event)
  | toggle
  | loadStart (collectionName : String)
  | loadResume (allLoaded : Bool)
deriving DecidableEq, Repr

/-- The effect of one task on the state. -/
def act (s : State) : Action → State
  | Action.event e => handle s e
  | Action.toggle => visibilityButtonPress s
  | Action.loadStart collectionName =>
      (loadSoundCollectionStart SOUND_COLLECTIONS s collectionName).1
  | Action.loadResume allLoaded => (loadSoundCollectionResume s allLoaded).1

/-- The tasks run one after the other. -/
def runActions (s : State) (actions : List Action) : State :=
  actions.foldl act s

/-! ## Lemmas on the intersection handlers -/

theorem enterAction_eq (s : State) (index sound : Nat) (snd : Sound)
    (hB : BoundTo s index sound snd) :
    enterAction s index =
      if snd.isPlaying then s
      else updateCurrentlyPlayingText (play s sound) snd.name := by
  obtain ⟨⟨td, hT, hS⟩, hI⟩ := hB
  simp only [enterAction, hT, hS, hI]
  cases snd.isPlaying <;> simp

theorem exitAction_eq (s : State) (index sound : Nat) (snd : Sound)
    (hB : BoundTo s index sound snd) :
    exitAction s index =
      if snd.isPlaying then updateCurrentlyPlayingText (stop s sound) "No sound playing"
      else s := by
  obtain ⟨⟨td, hT, hS⟩, hI⟩ := hB
  simp only [exitAction, hT, hS, hI]

theorem updateCurrentlyPlayingText_triggers (s : State) (text : String) :
    (updateCurrentlyPlayingText s text).triggers = s.triggers := by
  unfold updateCurrentlyPlayingText; cases s.currentlyPlayingText <;> rfl

theorem updateCurrentlyPlayingText_instances (s : State) (text : String) :
    (updateCurrentlyPlayingText s text).instances = s.instances := by
  unfold updateCurrentlyPlayingText; cases s.currentlyPlayingText <;> rfl

theorem updateCurrentlyPlayingText_calls (s : State) (text : String) :
    (updateCurrentlyPlayingText s text).calls = s.calls := by
  unfold updateCurrentlyPlayingText; cases s.currentlyPlayingText <;> rfl

theorem play_triggers (s : State) (id : Nat) : (play s id).triggers = s.triggers := by
  unfold play; dsimp only; split
  · split <;> rfl
  · rfl

theorem stop_triggers (s : State) (id : Nat) : (stop s id).triggers = s.triggers := by
  unfold stop; dsimp only; split
  · split <;> rfl
  · rfl

theorem play_calls (s : State) (id : Nat) : (play s id).calls = s.calls ++ [Call.play id] := by
  unfold play; dsimp only; split
  · split <;> rfl
  · rfl

theorem stop_calls (s : State) (id : Nat) : (stop s id).calls = s.calls ++ [Call.stop id] := by
  unfold stop; dsimp only; split
  · split <;> rfl
  · rfl

theorem play_instances_live (s : State) (id : Nat) (snd : Sound)
    (hI : s.instances[id]? = some snd) (hL : snd.disposed = false) :
    (play s id).instances = s.instances.set id { snd with isPlaying := true } := by
  simp [play, hI, hL]

theorem stop_instances_live (s : State) (id : Nat) (snd : Sound)
    (hI : s.instances[id]? = some snd) (hL : snd.disposed = false) :
    (stop s id).instances = s.instances.set id { snd with isPlaying := false } := by
  simp [stop, hI, hL]

theorem getElem?_set_self_of_some {α : Type} (l : List α) (i : Nat) (a b : α)
    (h : l[i]? = some a) : (l.set i b)[i]? = some b := by
  have hlt : i < l.length := by
    by_contra hge
    have : l[i]? = none := List.getElem?_eq_none (by omega)
    simp [this] at h
  simp [List.getElem?_set, hlt]

/-- After an enter event on a trigger bound to a live instance the binding is
as before and the instance is live and playing. -/
theorem enterAction_live (s : State) (index sound : Nat) (snd : Sound)
    (hB : BoundTo s index sound snd) (hL : snd.disposed = false) :
    BoundTo (enterAction s index) index sound { snd with isPlaying := true } := by
  rw [enterAction_eq s index sound snd hB]
  obtain ⟨hT, hI⟩ := hB
  cases hP : snd.isPlaying
  · refine ⟨?_, ?_⟩
    · simpa [updateCurrentlyPlayingText_triggers, play_triggers] using hT
    · simp only [Bool.false_eq_true, if_false]
      rw [updateCurrentlyPlayingText_instances, play_instances_live s sound snd hI hL]
      exact getElem?_set_self_of_some _ _ _ _ hI
  · refine ⟨by simpa using hT, ?_⟩
    have : ({ snd with isPlaying := true } : Sound) = snd := by
      cases snd; simp_all
    simpa [this] using hI

/-- After an exit event on a trigger bound to a live instance the binding is
as before and the instance is live and not playing. -/
theorem exitAction_live (s : State) (index sound : Nat) (snd : Sound)
    (hB : BoundTo s index sound snd) (hL : snd.disposed = false) :
    BoundTo (exitAction s index) index sound { snd with isPlaying := false } := by
  rw [exitAction_eq s index sound snd hB]
  obtain ⟨hT, hI⟩ := hB
  cases hP : snd.isPlaying
  · refine ⟨by simpa using hT, ?_⟩
    have : ({ snd with isPlaying := false } : Sound) = snd := by
      cases snd; simp_all
    simpa [this] using hI
  · refine ⟨?_, ?_⟩
    · simpa [updateCurrentlyPlayingText_triggers, stop_triggers] using hT
    · simp only [if_true]
      rw [updateCurrentlyPlayingText_instances, stop_instances_live s sound snd hI hL]
      exact getElem?_set_self_of_some _ _ _ _ hI

theorem isPlaying_of_boundTo (s : State) (index sound : Nat) (snd : Sound)
    (hB : BoundTo s index sound snd) : isPlaying s sound = snd.isPlaying := by
  simp [isPlaying, hB.2]

theorem run_append (s : State) (l : List Event) (e : Event) :
    run s (l ++ [e]) = handle (run s l) e := by
  simp [run, List.foldl_append]

theorem run_cons (s : State) (e : Event) (l : List Event) :
    run s (e :: l) = run (handle s e) l := rfl

/-- Events on one trigger bound to a live instance keep the binding and the
instance live, and leave it playing exactly when the last event was an enter. -/
theorem run_live (s : State) (index sound : Nat) (snd : Sound)
    (hB : BoundTo s index sound snd) (hL : snd.disposed = false)
    (events : List Event) (hE : ∀ e ∈ events, e.trigger = index) :
    ∃ snd2, BoundTo (run s events) index sound snd2 ∧ snd2.disposed = false ∧
      snd2.isPlaying = (if events = [] then snd.isPlaying else intersecting events) := by
  induction events using List.reverseRecOn with
  | nil => exact ⟨snd, hB, hL, by simp⟩
  | append_singleton l e ih =>
    obtain ⟨snd1, hB1, hL1, -⟩ := ih (fun x hx => hE x (by simp [hx]))
    have he : e.trigger = index := hE e (by simp)
    rw [run_append]
    cases e with
    | enter c t =>
      have ht : t = index := he
      subst ht
      exact ⟨_, enterAction_live _ _ _ _ hB1 hL1, hL1, by simp [intersecting, Event.isEnter]⟩
    | exit c t =>
      have ht : t = index := he
      subst ht
      exact ⟨_, exitAction_live _ _ _ _ hB1 hL1, hL1, by simp [intersecting, Event.isEnter]⟩

/-- The calls issued by events on one trigger bound to a live instance are
play and stop calls on that instance, and they alternate. -/
theorem run_calls (events : List Event) (s : State) (index sound : Nat) (snd : Sound)
    (hB : BoundTo s index sound snd) (hL : snd.disposed = false)
    (hE : ∀ e ∈ events, e.trigger = index) :
    ∃ new, (run s events).calls = s.calls ++ new ∧
      (∀ c ∈ new, c = Call.play sound ∨ c = Call.stop sound) ∧
      alternates (!snd.isPlaying) (playStopCalls sound new) = true := by
  induction events generalizing s snd with
  | nil => exact ⟨[], by simp [run], by simp, by simp [playStopCalls, alternates]⟩
  | cons e l ih =>
    have he : e.trigger = index := hE e (by simp)
    have hl : ∀ x ∈ l, x.trigger = index := fun x hx => hE x (by simp [hx])
    rw [run_cons]
    cases e with
    | enter c t =>
      have ht : t = index := he
      subst ht
      obtain ⟨new, h1, h2, h3⟩ := ih (handle s (Event.enter c t)) _
        (enterAction_live _ _ _ _ hB hL) hL hl
      have hc : (handle s (Event.enter c t)).calls =
          s.calls ++ (if snd.isPlaying then [] else [Call.play sound]) := by
        show (enterAction s t).calls = _
        rw [enterAction_eq s t sound snd hB]
        cases snd.isPlaying <;> simp [updateCurrentlyPlayingText_calls, play_calls]
      refine ⟨(if snd.isPlaying then [] else [Call.play sound]) ++ new, ?_, ?_, ?_⟩
      · rw [h1, hc, List.append_assoc]
      · intro x hx
        rcases List.mem_append.1 hx with hx | hx
        · cases hP : snd.isPlaying <;> simp [hP] at hx
          exact Or.inl hx
        · exact h2 x hx
      · cases hP : snd.isPlaying
        · simpa [playStopCalls, alternates] using h3
        · simpa [playStopCalls, alternates] using h3
    | exit c t =>
      have ht : t = index := he
      subst ht
      obtain ⟨new, h1, h2, h3⟩ := ih (handle s (Event.exit c t)) _
        (exitAction_live _ _ _ _ hB hL) hL hl
      have hc : (handle s (Event.exit c t)).calls =
          s.calls ++ (if snd.isPlaying then [Call.stop sound] else []) := by
        show (exitAction s t).calls = _
        rw [exitAction_eq s t sound snd hB]
        cases snd.isPlaying <;> simp [updateCurrentlyPlayingText_calls, stop_calls]
      refine ⟨(if snd.isPlaying then [Call.stop sound] else []) ++ new, ?_, ?_, ?_⟩
      · rw [h1, hc, List.append_assoc]
      · intro x hx
        rcases List.mem_append.1 hx with hx | hx
        · cases hP : snd.isPlaying <;> simp [hP] at hx
          exact Or.inr hx
        · exact h2 x hx
      · cases hP : snd.isPlaying
        · simpa [playStopCalls, alternates] using h3
        · simpa [playStopCalls, alternates] using h3
/-! ## Lemmas on the audio primitives -/

theorem play_rest (s : State) (id : Nat) : (play s id).rest = s.rest := by
  unfold play; dsimp only; split
  · split <;> rfl
  · rfl

theorem stop_rest (s : State) (id : Nat) : (stop s id).rest = s.rest := by
  unfold stop; dsimp only; split
  · split <;> rfl
  · rfl

theorem dispose_rest (s : State) (id : Nat) : (dispose s id).rest = s.rest := by
  unfold dispose; dsimp only; split <;> rfl

theorem attachToMesh_rest (s : State) (id mesh : Nat) : (attachToMesh s id mesh).rest = s.rest := by
  unfold attachToMesh; dsimp only; split <;> rfl

theorem dispose_calls (s : State) (id : Nat) :
    (dispose s id).calls = s.calls ++ [Call.dispose id] := by
  unfold dispose; dsimp only; split <;> rfl

theorem attachToMesh_calls (s : State) (id mesh : Nat) :
    (attachToMesh s id mesh).calls = s.calls ++ [Call.attachToMesh id mesh] := by
  unfold attachToMesh; dsimp only; split <;> rfl

theorem getElem?_set_map {α : Type} (l : List α) (i j : Nat) (a : α) (f : α → α)
    (h : l[i]? = some a) :
    (l.set i (f a))[j]? = (l[j]?).map (fun x => if j = i then f x else x) := by
  rw [List.getElem?_set]
  by_cases hij : i = j
  · subst hij
    have hlt : i < l.length := by
      by_contra hge
      have : l[i]? = none := List.getElem?_eq_none (by omega)
      simp [this] at h
    simp [hlt, h]
  · have hji : ¬ j = i := fun e => hij e.symm
    simp [hij, hji]

theorem stop_getElem? (s : State) (id j : Nat) :
    (stop s id).instances[j]? =
      (s.instances[j]?).map
        (fun x => if j = id then (if x.disposed then x else { x with isPlaying := false }) else x) := by
  unfold stop; dsimp only
  cases h : s.instances[id]? with
  | none =>
    by_cases hj : j = id
    · subst hj; simp [h]
    · simp [hj]
  | some snd =>
    dsimp only
    by_cases hd : snd.disposed = true
    · simp only [hd, if_true]
      by_cases hj : j = id
      · subst hj; simp [h, hd]
      · simp [hj]
    · rw [if_neg hd]
      refine (getElem?_set_map s.instances id j snd (fun x => { x with isPlaying := false }) h).trans ?_
      by_cases hj : j = id
      · subst hj; simp [h, hd]
      · simp [hj]

theorem play_getElem? (s : State) (id j : Nat) :
    (play s id).instances[j]? =
      (s.instances[j]?).map
        (fun x => if j = id then (if x.disposed then x else { x with isPlaying := true }) else x) := by
  unfold play; dsimp only
  cases h : s.instances[id]? with
  | none =>
    by_cases hj : j = id
    · subst hj; simp [h]
    · simp [hj]
  | some snd =>
    dsimp only
    by_cases hd : snd.disposed = true
    · simp only [hd, if_true]
      by_cases hj : j = id
      · subst hj; simp [h, hd]
      · simp [hj]
    · rw [if_neg hd]
      refine (getElem?_set_map s.instances id j snd (fun x => { x with isPlaying := true }) h).trans ?_
      by_cases hj : j = id
      · subst hj; simp [h, hd]
      · simp [hj]

theorem dispose_getElem? (s : State) (id j : Nat) :
    (dispose s id).instances[j]? =
      (s.instances[j]?).map (fun x => if j = id then { x with disposed := true } else x) := by
  unfold dispose; dsimp only
  cases h : s.instances[id]? with
  | none =>
    by_cases hj : j = id
    · subst hj; simp [h]
    · simp [hj]
  | some snd =>
    exact getElem?_set_map s.instances id j snd (fun x => { x with disposed := true }) h

theorem attachToMesh_getElem? (s : State) (id mesh j : Nat) :
    (attachToMesh s id mesh).instances[j]? =
      (s.instances[j]?).map (fun x => if j = id then { x with attachedMesh := some mesh } else x) := by
  unfold attachToMesh; dsimp only
  cases h : s.instances[id]? with
  | none =>
    by_cases hj : j = id
    · subst hj; simp [h]
    · simp [hj]
  | some snd =>
    exact getElem?_set_map s.instances id j snd (fun x => { x with attachedMesh := some mesh }) h

/-! ## Lemmas on `disposeSounds` -/

theorem play_length (s : State) (id : Nat) : (play s id).instances.length = s.instances.length := by
  unfold play; dsimp only; split
  · split <;> simp
  · rfl

theorem stop_length (s : State) (id : Nat) : (stop s id).instances.length = s.instances.length := by
  unfold stop; dsimp only; split
  · split <;> simp
  · rfl

theorem dispose_length (s : State) (id : Nat) :
    (dispose s id).instances.length = s.instances.length := by
  unfold dispose; dsimp only; split <;> simp

theorem attachToMesh_length (s : State) (id mesh : Nat) :
    (attachToMesh s id mesh).instances.length = s.instances.length := by
  unfold attachToMesh; dsimp only; split <;> simp

theorem disposeSound_rest (s : State) (id : Nat) : (disposeSound s id).rest = s.rest := by
  unfold disposeSound
  rw [dispose_rest]
  split
  · exact stop_rest s id
  · rfl

theorem disposeSound_length (s : State) (id : Nat) :
    (disposeSound s id).instances.length = s.instances.length := by
  unfold disposeSound
  rw [dispose_length]
  split
  · exact stop_length s id
  · rfl

theorem disposeSound_calls (s : State) (id : Nat) :
    (disposeSound s id).calls =
      s.calls ++ ((if isPlaying s id then [Call.stop id] else []) ++ [Call.dispose id]) := by
  unfold disposeSound
  rw [dispose_calls]
  split
  · rw [stop_calls]; simp
  · simp

theorem disposeSound_getElem? (s : State) (id j : Nat) :
    (disposeSound s id).instances[j]? =
      (s.instances[j]?).map (fun x =>
        if j = id then
          { x with isPlaying := (if x.disposed then x.isPlaying else false), disposed := true }
        else x) := by
  unfold disposeSound
  rw [dispose_getElem?]
  by_cases hj : j = id
  · subst hj
    cases h : s.instances[j]? with
    | none => simp [isPlaying, h]
    | some x =>
      cases hp : x.isPlaying
      · cases hd : x.disposed <;> simp [isPlaying, h, hp, hd]
      · simp only [isPlaying, h, hp, if_true]
        rw [stop_getElem?]
        cases hd : x.disposed <;> simp [h, hp, hd]
  · by_cases hp : isPlaying s id = true
    · rw [if_pos hp, stop_getElem?]; simp [hj]
    · rw [if_neg hp]; simp [hj]

theorem disposeSound_isDisposed (s : State) (id j : Nat) :
    isDisposed (disposeSound s id) j =
      (isDisposed s j || (decide (j = id) && decide (j < s.instances.length))) := by
  unfold isDisposed
  rw [disposeSound_getElem?]
  cases h : s.instances[j]? with
  | none =>
    have : ¬ j < s.instances.length := by
      intro hlt
      have := List.getElem?_eq_getElem hlt
      simp [h] at this
    simp [this]
  | some x =>
    have : j < s.instances.length := by
      by_contra hge
      have : s.instances[j]? = none := List.getElem?_eq_none (by omega)
      simp [this] at h
    by_cases hj : j = id
    · subst hj; simp [this]
    · simp [hj]

theorem disposeSound_isPlaying (s : State) (id j : Nat) :
    isPlaying (disposeSound s id) j =
      (isPlaying s j && (!decide (j = id) || isDisposed s j)) := by
  unfold isPlaying isDisposed
  rw [disposeSound_getElem?]
  cases h : s.instances[j]? with
  | none => simp
  | some x =>
    by_cases hj : j = id
    · cases hd : x.disposed <;> simp [hj, hd]
    · simp [hj]

theorem disposeSound_soundInfo (s : State) (id j : Nat) :
    soundInfo (disposeSound s id) j = soundInfo s j := by
  unfold soundInfo
  rw [disposeSound_getElem?]
  cases h : s.instances[j]? with
  | none => simp
  | some x => by_cases hj : j = id <;> simp [hj]

theorem foldl_disposeSound_rest (l : List Nat) (s : State) :
    (l.foldl disposeSound s).rest = s.rest := by
  induction l generalizing s with
  | nil => rfl
  | cons a l ih => simp only [List.foldl_cons]; rw [ih, disposeSound_rest]

theorem foldl_disposeSound_length (l : List Nat) (s : State) :
    (l.foldl disposeSound s).instances.length = s.instances.length := by
  induction l generalizing s with
  | nil => rfl
  | cons a l ih => simp only [List.foldl_cons]; rw [ih, disposeSound_length]

theorem foldl_disposeSound_soundInfo (l : List Nat) (s : State) (j : Nat) :
    soundInfo (l.foldl disposeSound s) j = soundInfo s j := by
  induction l generalizing s with
  | nil => rfl
  | cons a l ih => simp only [List.foldl_cons]; rw [ih, disposeSound_soundInfo]

theorem foldl_disposeSound_isDisposed (l : List Nat) (s : State) (j : Nat) :
    isDisposed (l.foldl disposeSound s) j =
      (isDisposed s j || (decide (j ∈ l) && decide (j < s.instances.length))) := by
  induction l generalizing s with
  | nil => simp
  | cons a l ih =>
    simp only [List.foldl_cons]
    rw [ih, disposeSound_isDisposed, disposeSound_length]
    by_cases h1 : j = a <;> by_cases h2 : j ∈ l <;> by_cases h3 : j < s.instances.length <;>
      cases isDisposed s j <;> simp [h1, h2, h3]

theorem foldl_disposeSound_isPlaying (l : List Nat) (s : State) (j : Nat) :
    isPlaying (l.foldl disposeSound s) j =
      (isPlaying s j && (!decide (j ∈ l) || isDisposed s j)) := by
  induction l generalizing s with
  | nil => simp
  | cons a l ih =>
    simp only [List.foldl_cons]
    rw [ih, disposeSound_isPlaying, disposeSound_isDisposed]
    by_cases h1 : j = a <;> by_cases h2 : j ∈ l <;> by_cases h3 : j < s.instances.length <;>
      cases isDisposed s j <;> cases isPlaying s j <;> simp [h1, h2, h3]

theorem foldl_disposeSound_calls (l : List Nat) (s : State) :
    ∃ new, (l.foldl disposeSound s).calls = s.calls ++ new ∧
      (∀ c ∈ new, ∃ id ∈ l, c = Call.stop id ∨ c = Call.dispose id) ∧
      (∀ id ∈ l, Call.dispose id ∈ new) := by
  induction l generalizing s with
  | nil => exact ⟨[], by simp, by simp, by simp⟩
  | cons a l ih =>
    obtain ⟨new, h1, h2, h3⟩ := ih (disposeSound s a)
    refine ⟨((if isPlaying s a then [Call.stop a] else []) ++ [Call.dispose a]) ++ new, ?_, ?_, ?_⟩
    · simp only [List.foldl_cons]
      rw [h1, disposeSound_calls, List.append_assoc]
    · intro c hc
      rcases List.mem_append.1 hc with hc | hc
      · refine ⟨a, by simp, ?_⟩
        rcases List.mem_append.1 hc with hc | hc
        · split at hc
          · left; simpa using hc
          · simp at hc
        · right; simpa using hc
      · obtain ⟨id, hid, h⟩ := h2 c hc
        exact ⟨id, by simp [hid], h⟩
    · intro id hid
      rcases List.mem_cons.1 hid with h | h
      · subst h; simp
      · exact List.mem_append_right _ (h3 id h)

/-! ## Lemmas on `updateTriggerSounds` -/

theorem globals_of_rest {s t : State} (h : t.rest = s.rest) : t.globals = s.globals := by
  simp only [State.rest, Prod.mk.injEq] at h
  simp only [State.globals, Prod.mk.injEq]
  tauto

theorem triggers_of_rest {s t : State} (h : t.rest = s.rest) : t.triggers = s.triggers := by
  simp only [State.rest, Prod.mk.injEq] at h
  tauto

theorem Rebinds.refl (s : State) : Rebinds s s :=
  ⟨rfl, rfl, fun _ => rfl, fun _ => rfl, [], by simp, by simp⟩

theorem Rebinds.trans {s t u : State} (h1 : Rebinds s t) (h2 : Rebinds t u) : Rebinds s u := by
  obtain ⟨a1, b1, c1, d1, n1, e1, f1⟩ := h1
  obtain ⟨a2, b2, c2, d2, n2, e2, f2⟩ := h2
  refine ⟨a2.trans a1, b2.trans b1, fun j => (c2 j).trans (c1 j), fun j => (d2 j).trans (d1 j),
    n1 ++ n2, by rw [e2, e1, List.append_assoc], ?_⟩
  intro c hc
  rcases List.mem_append.1 hc with h | h
  · exact f1 c h
  · exact f2 c h

theorem stop_rebinds (s : State) (id : Nat) : Rebinds s (stop s id) := by
  refine ⟨globals_of_rest (stop_rest s id), stop_length s id, ?_, ?_, [Call.stop id],
    stop_calls s id, by simp [Call.isRebinding]⟩
  · intro j
    unfold soundInfo
    rw [stop_getElem?]
    cases s.instances[j]? with
    | none => rfl
    | some x => by_cases hj : j = id <;> cases hd : x.disposed <;> simp [hj, hd]
  · intro j
    unfold isDisposed
    rw [stop_getElem?]
    cases s.instances[j]? with
    | none => rfl
    | some x => by_cases hj : j = id <;> cases hd : x.disposed <;> simp [hj, hd]

theorem attachToMesh_rebinds (s : State) (id mesh : Nat) : Rebinds s (attachToMesh s id mesh) := by
  refine ⟨globals_of_rest (attachToMesh_rest s id mesh), attachToMesh_length s id mesh, ?_, ?_,
    [Call.attachToMesh id mesh], attachToMesh_calls s id mesh, by simp [Call.isRebinding]⟩
  · intro j
    unfold soundInfo
    rw [attachToMesh_getElem?]
    cases s.instances[j]? with
    | none => rfl
    | some x => by_cases hj : j = id <;> simp [hj]
  · intro j
    unfold isDisposed
    rw [attachToMesh_getElem?]
    cases s.instances[j]? with
    | none => rfl
    | some x => by_cases hj : j = id <;> simp [hj]

theorem setTriggers_rebinds (s : State) (ts : List TriggerData) :
    Rebinds s { s with triggers := ts } :=
  ⟨rfl, rfl, fun _ => rfl, fun _ => rfl, [], by simp, by simp⟩

/-- The state before the rebinding of one trigger: its old sound is stopped if
it plays (lines 245-247). -/
theorem stopOld_rebinds (s : State) (old : Option Nat) :
    Rebinds s (match old with
      | some o => if isPlaying s o then stop s o else s
      | none => s) := by
  cases old with
  | none => exact Rebinds.refl s
  | some o =>
    dsimp only
    split
    · exact stop_rebinds s o
    · exact Rebinds.refl s

theorem stopOld_triggers (s : State) (old : Option Nat) :
    (match old with
      | some o => if isPlaying s o then stop s o else s
      | none => s).triggers = s.triggers := by
  cases old with
  | none => rfl
  | some o =>
    dsimp only
    split
    · exact stop_triggers s o
    · rfl

theorem updateTrigger_rebinds (s : State) (index : Nat) : Rebinds s (updateTrigger s index) := by
  unfold updateTrigger
  cases s.triggers[index]? with
  | none => exact Rebinds.refl s
  | some td =>
    dsimp only
    cases soundKeyOfIndex index with
    | none => exact Rebinds.refl s
    | some key =>
      dsimp only
      cases objGet s.soundObjects key with
      | none => exact Rebinds.refl s
      | some new =>
        dsimp only
        exact ((stopOld_rebinds s td.sound).trans (setTriggers_rebinds _ _)).trans
          (attachToMesh_rebinds _ _ _)

theorem updateTrigger_getElem? (s : State) (index i : Nat) :
    (updateTrigger s index).triggers[i]? =
      if i = index then (s.triggers[i]?).map (rebound s.soundObjects i) else s.triggers[i]? := by
  unfold updateTrigger rebound
  cases h1 : s.triggers[index]? with
  | none =>
    by_cases hi : i = index
    · subst hi; simp [h1]
    · simp [hi]
  | some td =>
    dsimp only
    cases h2 : soundKeyOfIndex index with
    | none =>
      by_cases hi : i = index
      · subst hi; simp [h1, h2]
      · simp [hi]
    | some key =>
      dsimp only
      cases h3 : objGet s.soundObjects key with
      | none =>
        by_cases hi : i = index
        · subst hi; simp [h1, h2, h3]
        · simp [hi]
      | some new =>
        dsimp only
        rw [triggers_of_rest (attachToMesh_rest _ _ _)]
        dsimp only
        rw [stopOld_triggers]
        have := getElem?_set_map s.triggers index i td (fun x => { x with sound := some new }) h1
        refine this.trans ?_
        by_cases hi : i = index
        · subst hi; simp [h1, h2, h3]
        · simp [hi]

theorem foldl_updateTrigger_rebinds (l : List Nat) (s : State) :
    Rebinds s (l.foldl updateTrigger s) := by
  induction l generalizing s with
  | nil => exact Rebinds.refl s
  | cons a l ih => exact (updateTrigger_rebinds s a).trans (ih _)

theorem soundObjects_of_rebinds {s t : State} (h : Rebinds s t) :
    t.soundObjects = s.soundObjects := by
  have := h.1
  simp only [State.globals, Prod.mk.injEq] at this
  tauto

theorem rebound_idem (so : List (String × Nat)) (i : Nat) (td : TriggerData) :
    rebound so i (rebound so i td) = rebound so i td := by
  unfold rebound
  cases (soundKeyOfIndex i).bind (objGet so) <;> rfl

theorem foldl_updateTrigger_getElem? (l : List Nat) (s : State) (i : Nat) :
    (l.foldl updateTrigger s).triggers[i]? =
      if i ∈ l then (s.triggers[i]?).map (rebound s.soundObjects i) else s.triggers[i]? := by
  induction l generalizing s with
  | nil => simp
  | cons a l ih =>
    simp only [List.foldl_cons]
    rw [ih, updateTrigger_getElem?, soundObjects_of_rebinds (updateTrigger_rebinds s a)]
    by_cases h1 : i = a <;> by_cases h2 : i ∈ l <;>
      cases s.triggers[i]? <;> simp [h1, h2, rebound_idem]

/-- The effect of `updateTriggerSounds` on the trigger records: each one is
rebound by its index. -/
theorem updateTriggerSounds_getElem? (s : State) (i : Nat) :
    (updateTriggerSounds s).triggers[i]? = (s.triggers[i]?).map (rebound s.soundObjects i) := by
  unfold updateTriggerSounds
  rw [foldl_updateTrigger_getElem?]
  by_cases h : i < s.triggers.length
  · simp [h]
  · have : s.triggers[i]? = none := List.getElem?_eq_none (by omega)
    simp [h, this]

theorem updateTriggerSounds_rebinds (s : State) : Rebinds s (updateTriggerSounds s) :=
  foldl_updateTrigger_rebinds _ s

/-! ## Lemmas on `loadSoundCollection` -/

theorem registered_full (name : String) (collection : List (String × SoundData))
    (h : objGet SOUND_COLLECTIONS name = some collection) :
    ∃ d0 d1 d2, collection = [("lung", d0), ("heart", d1), ("crackles", d2)] := by
  simp only [SOUND_COLLECTIONS, objGet] at h
  split at h
  · exact ⟨_, _, _, (Option.some.inj h).symm⟩
  · split at h
    · exact ⟨_, _, _, (Option.some.inj h).symm⟩
    · cases h

theorem loadSoundCollectionIn_eq (table : List (String × List (String × SoundData)))
    (loads : String → Bool) (s : State) (name : String) :
    loadSoundCollectionIn table loads s name =
      match objGet table name with
      | none => ((loadSoundCollectionStart table s name).1, LoadResult.rejected)
      | some collection =>
          loadSoundCollectionResume (loadSoundCollectionStart table s name).1
            (collection.all (fun e => loads e.2.url)) := by
  unfold loadSoundCollectionIn loadSoundCollectionStart
  cases objGet table name <;> rfl

theorem loadSoundCollectionStart_none (table : List (String × List (String × SoundData)))
    (s : State) (name : String) (h : objGet table name = none) :
    (loadSoundCollectionStart table s name).1 =
      { disposeSounds s with soundObjects := [], activeCollection := name } := by
  unfold loadSoundCollectionStart
  simp [h]

theorem loadSoundCollectionStart_full (table : List (String × List (String × SoundData)))
    (s : State) (name : String) (d0 d1 d2 : SoundData)
    (h : objGet table name = some [("lung", d0), ("heart", d1), ("crackles", d2)]) :
    (loadSoundCollectionStart table s name).1 =
      { disposeSounds s with
        soundObjects := fullObjects s.instances.length
        activeCollection := name
        instances := (disposeSounds s).instances ++ [newSound d0, newSound d1, newSound d2] } := by
  have hlen : (disposeSounds s).instances.length = s.instances.length :=
    foldl_disposeSound_length _ s
  unfold loadSoundCollectionStart
  simp [h, createSound, objSet, fullObjects, newSound, hlen]

theorem fields_of_rest {s t : State} (h : t.rest = s.rest) :
    t.triggersVisible = s.triggersVisible ∧ t.activeCollection = s.activeCollection ∧
    t.soundObjects = s.soundObjects ∧ t.currentlyPlayingText = s.currentlyPlayingText ∧
    t.visibilityText = s.visibilityText ∧ t.soundText = s.soundText ∧
    t.currentCollectionIndex = s.currentCollectionIndex ∧ t.triggers = s.triggers ∧
    t.meshes = s.meshes := by
  simpa only [State.rest, Prod.mk.injEq] using h

theorem fields_of_globals {s t : State} (h : t.globals = s.globals) :
    t.triggersVisible = s.triggersVisible ∧ t.activeCollection = s.activeCollection ∧
    t.soundObjects = s.soundObjects ∧ t.currentlyPlayingText = s.currentlyPlayingText ∧
    t.visibilityText = s.visibilityText ∧ t.soundText = s.soundText ∧
    t.currentCollectionIndex = s.currentCollectionIndex ∧ t.meshes = s.meshes := by
  simpa only [State.globals, Prod.mk.injEq] using h

theorem disposeSounds_rest (s : State) : (disposeSounds s).rest = s.rest :=
  foldl_disposeSound_rest _ s

theorem disposeSounds_length (s : State) :
    (disposeSounds s).instances.length = s.instances.length :=
  foldl_disposeSound_length _ s

theorem disposeSounds_isDisposed (s : State) (j : Nat) :
    isDisposed (disposeSounds s) j =
      (isDisposed s j ||
        (decide (j ∈ objValues s.soundObjects) && decide (j < s.instances.length))) :=
  foldl_disposeSound_isDisposed _ s j

theorem disposeSounds_soundInfo (s : State) (j : Nat) :
    soundInfo (disposeSounds s) j = soundInfo s j :=
  foldl_disposeSound_soundInfo _ s j

theorem getElem?_append_three {α : Type} (l : List α) (a b c : α) (n : Nat)
    (h : l.length = n) :
    (l ++ [a, b, c])[n]? = some a ∧ (l ++ [a, b, c])[n + 1]? = some b ∧
      (l ++ [a, b, c])[n + 2]? = some c := by
  subst h
  refine ⟨?_, ?_, ?_⟩
  · rw [List.getElem?_append_right (by omega)]; simp
  · rw [List.getElem?_append_right (by omega)]; simp
  · rw [List.getElem?_append_right (by omega)]; simp

/-- The state at the `await` of a load of a collection with the three keys. -/
theorem loadSoundCollectionStart_facts (table : List (String × List (String × SoundData)))
    (s : State) (name : String) (d0 d1 d2 : SoundData)
    (h : objGet table name = some [("lung", d0), ("heart", d1), ("crackles", d2)]) :
    (loadSoundCollectionStart table s name).1.triggers = s.triggers ∧
    (loadSoundCollectionStart table s name).1.meshes = s.meshes ∧
    (loadSoundCollectionStart table s name).1.currentlyPlayingText = s.currentlyPlayingText ∧
    (loadSoundCollectionStart table s name).1.triggersVisible = s.triggersVisible ∧
    (loadSoundCollectionStart table s name).1.soundObjects = fullObjects s.instances.length ∧
    (loadSoundCollectionStart table s name).1.activeCollection = name ∧
    (loadSoundCollectionStart table s name).1.instances.length = s.instances.length + 3 ∧
    (∀ k, k < 3 →
      isDisposed (loadSoundCollectionStart table s name).1 (s.instances.length + k) = false) ∧
    soundInfo (loadSoundCollectionStart table s name).1 s.instances.length
      = some (d0.name, d0.url) ∧
    soundInfo (loadSoundCollectionStart table s name).1 (s.instances.length + 1)
      = some (d1.name, d1.url) ∧
    soundInfo (loadSoundCollectionStart table s name).1 (s.instances.length + 2)
      = some (d2.name, d2.url) := by
  rw [loadSoundCollectionStart_full table s name d0 d1 d2 h]
  obtain ⟨f1, -, -, f4, -, -, -, f8, f9⟩ := fields_of_rest (disposeSounds_rest s)
  have hlen := disposeSounds_length s
  obtain ⟨g0, g1, g2⟩ := getElem?_append_three (disposeSounds s).instances
    (newSound d0) (newSound d1) (newSound d2) s.instances.length hlen
  refine ⟨f8, f9, f4, f1, rfl, rfl, by simp [hlen], ?_, ?_, ?_, ?_⟩
  · intro k hk
    have hk3 : k = 0 ∨ k = 1 ∨ k = 2 := by omega
    rcases hk3 with rfl | rfl | rfl
    · simp only [isDisposed, Nat.add_zero, g0]; rfl
    · simp only [isDisposed, g1]; rfl
    · simp only [isDisposed, g2]; rfl
  · simp only [soundInfo, g0]; rfl
  · simp only [soundInfo, g1]; rfl
  · simp only [soundInfo, g2]; rfl

theorem rebound_full_zero (n : Nat) (td : TriggerData) :
    rebound (fullObjects n) 0 td = { td with sound := some n } := by
  simp [rebound, soundKeyOfIndex, fullObjects, objGet]

theorem rebound_full_one (n : Nat) (td : TriggerData) :
    rebound (fullObjects n) 1 td = { td with sound := some (n + 1) } := by
  simp [rebound, soundKeyOfIndex, fullObjects, objGet]

theorem rebound_full_two (n : Nat) (td : TriggerData) :
    rebound (fullObjects n) 2 td = { td with sound := some (n + 2) } := by
  simp [rebound, soundKeyOfIndex, fullObjects, objGet]

/-- A call that resolves to `true` is a call on a registered collection whose
continuation has rebound the triggers. -/
theorem loadSoundCollection_ok (loads : String → Bool) (s : State) (name : String)
    (h : (loadSoundCollection loads s name).2 = LoadResult.resolved true) :
    ∃ d0 d1 d2, objGet SOUND_COLLECTIONS name = some [("lung", d0), ("heart", d1), ("crackles", d2)] ∧
      (loadSoundCollection loads s name).1 =
        updateTriggerSounds (loadSoundCollectionStart SOUND_COLLECTIONS s name).1 := by
  unfold loadSoundCollection at h ⊢
  rw [loadSoundCollectionIn_eq] at h ⊢
  cases hc : objGet SOUND_COLLECTIONS name with
  | none => simp [hc] at h
  | some collection =>
    obtain ⟨d0, d1, d2, rfl⟩ := registered_full name collection hc
    refine ⟨d0, d1, d2, rfl, ?_⟩
    simp only [hc] at h ⊢
    unfold loadSoundCollectionResume at h ⊢
    split at h
    · rename_i hall
      simp [hall]
    · simp at h

/-- The state after the continuation of a fulfilled load of a collection with
the three keys. -/
theorem rebind_after_start_facts (table : List (String × List (String × SoundData)))
    (s : State) (name : String) (d0 d1 d2 : SoundData)
    (h : objGet table name = some [("lung", d0), ("heart", d1), ("crackles", d2)]) :
    (∀ i, (updateTriggerSounds (loadSoundCollectionStart table s name).1).triggers[i]? =
      (s.triggers[i]?).map (rebound (fullObjects s.instances.length) i)) ∧
    (updateTriggerSounds (loadSoundCollectionStart table s name).1).meshes = s.meshes ∧
    (updateTriggerSounds (loadSoundCollectionStart table s name).1).currentlyPlayingText
      = s.currentlyPlayingText ∧
    (updateTriggerSounds (loadSoundCollectionStart table s name).1).triggersVisible
      = s.triggersVisible ∧
    (updateTriggerSounds (loadSoundCollectionStart table s name).1).soundObjects
      = fullObjects s.instances.length ∧
    (updateTriggerSounds (loadSoundCollectionStart table s name).1).activeCollection = name ∧
    (updateTriggerSounds (loadSoundCollectionStart table s name).1).instances.length
      = s.instances.length + 3 ∧
    (∀ k, k < 3 →
      isDisposed (updateTriggerSounds (loadSoundCollectionStart table s name).1)
        (s.instances.length + k) = false) ∧
    soundInfo (updateTriggerSounds (loadSoundCollectionStart table s name).1) s.instances.length
      = some (d0.name, d0.url) ∧
    soundInfo (updateTriggerSounds (loadSoundCollectionStart table s name).1)
      (s.instances.length + 1) = some (d1.name, d1.url) ∧
    soundInfo (updateTriggerSounds (loadSoundCollectionStart table s name).1)
      (s.instances.length + 2) = some (d2.name, d2.url) := by
  obtain ⟨a1, a2, a3, a4, a5, a6, a7, a8, a9, a10, a11⟩ :=
    loadSoundCollectionStart_facts table s name d0 d1 d2 h
  obtain ⟨r1, r2, r3, r4, -⟩ := updateTriggerSounds_rebinds (loadSoundCollectionStart table s name).1
  obtain ⟨g1, g2, g3, g4, -, -, -, g8⟩ := fields_of_globals r1
  refine ⟨?_, g8.trans a2, g4.trans a3, g1.trans a4, g3.trans a5, g2.trans a6, r2.trans a7,
    fun k hk => (r4 _).trans (a8 k hk), (r3 _).trans a9, (r3 _).trans a10, (r3 _).trans a11⟩
  intro i
  rw [updateTriggerSounds_getElem?, a1, a5]

/-- From the shape of a state after a rebinding against `fullObjects n`: the
three triggers are bound, key by key, to the instances `n`, `n + 1`, `n + 2`. -/
theorem bound_of_facts (s t : State) (name : String) (n : Nat) (d0 d1 d2 : SoundData)
    (hc : objGet SOUND_COLLECTIONS name = some [("lung", d0), ("heart", d1), ("crackles", d2)])
    (hT : CreatedFromFull s)
    (b1 : ∀ i, t.triggers[i]? = (s.triggers[i]?).map (rebound (fullObjects n) i))
    (b2 : t.meshes = s.meshes) (b5 : t.soundObjects = fullObjects n)
    (b8 : ∀ k, k < 3 → isDisposed t (n + k) = false)
    (b9 : soundInfo t n = some (d0.name, d0.url))
    (b10 : soundInfo t (n + 1) = some (d1.name, d1.url))
    (b11 : soundInfo t (n + 2) = some (d2.name, d2.url)) :
    t.triggers.length = 3 ∧
    ∀ (i : Nat) (td : TriggerData), t.triggers[i]? = some td →
      ∃ (m : Mesh) (key : String) (id : Nat) (collection : List (String × SoundData))
        (data : SoundData),
        t.meshes[td.trigger]? = some m ∧
        keyOfMeshName m.name = some key ∧
        objGet SOUND_COLLECTIONS name = some collection ∧
        objGet collection key = some data ∧
        objGet t.soundObjects key = some id ∧
        td.sound = some id ∧
        n ≤ id ∧
        soundInfo t id = some (data.name, data.url) ∧
        isDisposed t id = false := by
  unfold CreatedFromFull at hT
  rcases hs : s.triggers with _ | ⟨ta, _ | ⟨tb, _ | ⟨tc, _ | ⟨td4, r⟩⟩⟩⟩ <;>
    simp only [hs, List.map_cons, List.map_nil, List.cons.injEq, and_true, reduceCtorEq,
      and_false] at hT
  obtain ⟨ha, hb, hcc⟩ := hT
  obtain ⟨ma, hma, hna⟩ := Option.map_eq_some'.1 ha
  obtain ⟨mb, hmb, hnb⟩ := Option.map_eq_some'.1 hb
  obtain ⟨mc, hmc, hnc⟩ := Option.map_eq_some'.1 hcc
  have hlen : t.triggers.length
      = 3 := by
    have h3 := b1 3
    have h2 := b1 2
    rw [hs] at h3 h2
    simp only [List.length_cons, List.length_nil, Nat.lt_irrefl, not_false_eq_true,
      List.getElem?_eq_none, Option.map_none', Nat.reduceAdd, le_refl] at h3
    have l3 := List.getElem?_eq_none_iff.1 h3
    have l2 : 2 < t.triggers.length := by
      by_contra hge
      have : t.triggers[2]? = none :=
        List.getElem?_eq_none (by omega)
      rw [this] at h2
      simp at h2
    omega
  refine ⟨hlen, ?_⟩
  intro i td hi
  rw [b1 i, hs] at hi
  rw [b2, b5]
  match i, hi with
  | 0, hi =>
    simp only [List.getElem?_cons_zero, Option.map_some', Option.some.injEq] at hi
    subst hi
    rw [rebound_full_zero]
    exact ⟨ma, "lung", n, _, d0, hma, by simp [hna, keyOfMeshName], hc,
      by simp [objGet], by simp [fullObjects, objGet], rfl, le_refl _, b9, b8 0 (by omega)⟩
  | 1, hi =>
    simp only [List.getElem?_cons_succ, List.getElem?_cons_zero, Option.map_some',
      Option.some.injEq] at hi
    subst hi
    rw [rebound_full_one]
    exact ⟨mb, "heart", n + 1, _, d1, hmb, by simp [hnb, keyOfMeshName], hc,
      by simp [objGet], by simp [fullObjects, objGet], rfl, by omega, b10, b8 1 (by omega)⟩
  | 2, hi =>
    simp only [List.getElem?_cons_succ, List.getElem?_cons_zero, Option.map_some',
      Option.some.injEq] at hi
    subst hi
    rw [rebound_full_two]
    exact ⟨mc, "crackles", n + 2, _, d2, hmc, by simp [hnc, keyOfMeshName], hc,
      by simp [objGet], by simp [fullObjects, objGet], rfl, by omega, b11, b8 2 (by omega)⟩
  | (j + 3), hi =>
    simp at hi


theorem objGet_mem_objValues {α : Type} (obj : List (String × α)) (key : String) (v : α)
    (h : objGet obj key = some v) : v ∈ objValues obj := by
  induction obj with
  | nil => simp [objGet] at h
  | cons e rest ih =>
    obtain ⟨k, w⟩ := e
    simp only [objGet] at h
    split at h
    · simp only [Option.some.injEq] at h
      subst h
      simp [objValues]
    · have := ih h
      simp only [objValues, List.map_cons, List.mem_cons] at this ⊢
      exact Or.inr this

/-- What the first loop of a load does to the instances it finds in
`sounds.soundObjects`: each one is disposed, and stopped if it was live. -/
theorem disposeSounds_old (s : State) (key : String) (id : Nat)
    (h : objGet s.soundObjects key = some id) (hlt : id < s.instances.length) :
    isDisposed (disposeSounds s) id = true ∧
    (isDisposed s id = false → isPlaying (disposeSounds s) id = false) := by
  have hm := objGet_mem_objValues _ _ _ h
  refine ⟨?_, ?_⟩
  · rw [disposeSounds_isDisposed]; simp [hm, hlt]
  · intro hl
    unfold disposeSounds
    rw [foldl_disposeSound_isPlaying]; simp [hm, hl]

theorem isDisposed_append (s t : State) (extra : List Sound) (j : Nat)
    (h : t.instances = s.instances ++ extra) (hlt : j < s.instances.length) :
    isDisposed t j = isDisposed s j ∧ isPlaying t j = isPlaying s j := by
  unfold isDisposed isPlaying
  rw [h, List.getElem?_append_left hlt]
  exact ⟨rfl, rfl⟩

/-- The state a failing call leaves: the one at its `await`. -/
theorem loadSoundCollection_failed (loads : String → Bool) (s : State) (name : String)
    (h : (loadSoundCollection loads s name).2 ≠ LoadResult.resolved true) :
    (loadSoundCollection loads s name).1 = (loadSoundCollectionStart SOUND_COLLECTIONS s name).1 := by
  unfold loadSoundCollection at h ⊢
  rw [loadSoundCollectionIn_eq] at h ⊢
  cases hc : objGet SOUND_COLLECTIONS name with
  | none => rfl
  | some collection =>
    simp only [hc] at h ⊢
    unfold loadSoundCollectionResume at h ⊢
    split at h
    · exact absurd rfl h
    · rename_i hall
      simp [hall]

/-- The state at the `await` of any load: triggers, meshes and label are those
of before, the requested name is active, the previous instances are disposed,
and `sounds.soundObjects` holds only instances made by the call. -/
theorem loadSoundCollectionStart_effects (s : State) (name : String) :
    (loadSoundCollectionStart SOUND_COLLECTIONS s name).1.triggers = s.triggers ∧
    (loadSoundCollectionStart SOUND_COLLECTIONS s name).1.meshes = s.meshes ∧
    (loadSoundCollectionStart SOUND_COLLECTIONS s name).1.currentlyPlayingText
      = s.currentlyPlayingText ∧
    (loadSoundCollectionStart SOUND_COLLECTIONS s name).1.activeCollection = name ∧
    (loadSoundCollectionStart SOUND_COLLECTIONS s name).1.calls = (disposeSounds s).calls ∧
    (∀ (key : String) (id : Nat), objGet s.soundObjects key = some id →
      id < s.instances.length →
      isDisposed (loadSoundCollectionStart SOUND_COLLECTIONS s name).1 id = true ∧
      (isDisposed s id = false →
        isPlaying (loadSoundCollectionStart SOUND_COLLECTIONS s name).1 id = false)) ∧
    (∀ (key : String) (id : Nat),
      objGet (loadSoundCollectionStart SOUND_COLLECTIONS s name).1.soundObjects key = some id →
      s.instances.length ≤ id) := by
  obtain ⟨-, -, -, f4, -, -, -, f8, f9⟩ := fields_of_rest (disposeSounds_rest s)
  cases hc : objGet SOUND_COLLECTIONS name with
  | none =>
    rw [loadSoundCollectionStart_none _ s name hc]
    refine ⟨f8, f9, f4, rfl, rfl, ?_, ?_⟩
    · intro key id h hlt
      exact disposeSounds_old s key id h hlt
    · intro key id h
      simp [objGet] at h
  | some collection =>
    obtain ⟨d0, d1, d2, rfl⟩ := registered_full name collection hc
    rw [loadSoundCollectionStart_full _ s name d0 d1 d2 hc]
    refine ⟨f8, f9, f4, rfl, rfl, ?_, ?_⟩
    · intro key id h hlt
      have hlt2 : id < (disposeSounds s).instances.length := by
        rw [disposeSounds_length]; exact hlt
      obtain ⟨e1, e2⟩ := isDisposed_append (disposeSounds s)
        { disposeSounds s with
          soundObjects := fullObjects s.instances.length
          activeCollection := name
          instances := (disposeSounds s).instances ++ [newSound d0, newSound d1, newSound d2] }
        _ id rfl hlt2
      rw [e1, e2]
      exact disposeSounds_old s key id h hlt
    · intro key id h
      simp only [fullObjects, objGet] at h
      split at h
      · simp only [Option.some.injEq] at h; omega
      · split at h
        · simp only [Option.some.injEq] at h; omega
        · split at h
          · simp only [Option.some.injEq] at h; omega
          · cases h

/-! ## Lemmas on the visibility button and on `createTriggerPoints` -/

theorem setVisible_getElem? (s : State) (mesh j : Nat) (v : Bool) :
    (setVisible s mesh v).meshes[j]? =
      (s.meshes[j]?).map (fun m => if j = mesh then { m with isVisible := v } else m) := by
  unfold setVisible
  cases h : s.meshes[mesh]? with
  | none =>
    by_cases hj : j = mesh
    · subst hj; simp [h]
    · simp [hj]
  | some m =>
    exact getElem?_set_map s.meshes mesh j m (fun x => { x with isVisible := v }) h

/-- The fields of the state other than the meshes. -/
theorem setVisible_frame (s : State) (mesh : Nat) (v : Bool) :
    (setVisible s mesh v).triggersVisible = s.triggersVisible ∧
    (setVisible s mesh v).activeCollection = s.activeCollection ∧
    (setVisible s mesh v).soundObjects = s.soundObjects ∧
    (setVisible s mesh v).currentlyPlayingText = s.currentlyPlayingText ∧
    (setVisible s mesh v).visibilityText = s.visibilityText ∧
    (setVisible s mesh v).triggers = s.triggers ∧
    (setVisible s mesh v).instances = s.instances ∧
    (setVisible s mesh v).calls = s.calls := by
  unfold setVisible
  cases s.meshes[mesh]? <;> simp

theorem foldl_setVisible_frame (l : List TriggerData) (s : State) (v : Bool) :
    (l.foldl (fun st td => setVisible st td.trigger v) s).triggersVisible = s.triggersVisible ∧
    (l.foldl (fun st td => setVisible st td.trigger v) s).activeCollection
      = s.activeCollection ∧
    (l.foldl (fun st td => setVisible st td.trigger v) s).soundObjects = s.soundObjects ∧
    (l.foldl (fun st td => setVisible st td.trigger v) s).currentlyPlayingText
      = s.currentlyPlayingText ∧
    (l.foldl (fun st td => setVisible st td.trigger v) s).visibilityText = s.visibilityText ∧
    (l.foldl (fun st td => setVisible st td.trigger v) s).triggers = s.triggers ∧
    (l.foldl (fun st td => setVisible st td.trigger v) s).instances = s.instances ∧
    (l.foldl (fun st td => setVisible st td.trigger v) s).calls = s.calls := by
  induction l generalizing s with
  | nil => simp
  | cons a l ih =>
    simp only [List.foldl_cons]
    obtain ⟨h1, h2, h3, h4, h5, h6, h7, h8⟩ := ih (setVisible s a.trigger v)
    obtain ⟨g1, g2, g3, g4, g5, g6, g7, g8⟩ := setVisible_frame s a.trigger v
    exact ⟨h1.trans g1, h2.trans g2, h3.trans g3, h4.trans g4, h5.trans g5, h6.trans g6,
      h7.trans g7, h8.trans g8⟩

theorem foldl_setVisible_getElem? (l : List TriggerData) (s : State) (v : Bool) (j : Nat) :
    (l.foldl (fun st td => setVisible st td.trigger v) s).meshes[j]? =
      (s.meshes[j]?).map
        (fun m => if j ∈ l.map (fun td => td.trigger) then { m with isVisible := v } else m) := by
  induction l generalizing s with
  | nil => simp
  | cons a l ih =>
    simp only [List.foldl_cons]
    rw [ih, setVisible_getElem?]
    cases s.meshes[j]? with
    | none => rfl
    | some m =>
      by_cases h1 : j = a.trigger <;> by_cases h2 : j ∈ l.map (fun td => td.trigger) <;>
        simp [h1, h2]

theorem createTriggerPoint_triggersVisible (s : State) (im : Nat) (objs : List (String × Nat))
    (meshName key : String) :
    (createTriggerPoint s im objs meshName key).triggersVisible = s.triggersVisible := by
  unfold createTriggerPoint
  dsimp only
  cases objGet objs key with
  | none => rfl
  | some sound =>
    dsimp only
    exact (fields_of_rest (attachToMesh_rest _ _ _)).1

/-- One block of `createTriggerPoints` keeps the invariant on visibility. -/
theorem createTriggerPoint_visibleInv (s : State) (im : Nat) (objs : List (String × Nat))
    (meshName key : String) (h : VisibleInv s) :
    VisibleInv (createTriggerPoint s im objs meshName key) := by
  have hmesh : ∀ (j : Nat) (m : Mesh),
      (s.meshes ++ [{ name := meshName, parent := some im, isVisible := s.triggersVisible }])[j]?
        = some m →
      s.meshes[j]? = some m ∨ (j = s.meshes.length ∧ m.isVisible = s.triggersVisible) := by
    intro j m hj
    by_cases hlt : j < s.meshes.length
    · rw [List.getElem?_append_left hlt] at hj
      exact Or.inl hj
    · rw [List.getElem?_append_right (by omega)] at hj
      right
      by_cases h0 : j - s.meshes.length = 0
      · rw [h0] at hj
        simp only [List.getElem?_cons_zero, Option.some.injEq] at hj
        subst hj
        exact ⟨by omega, rfl⟩
      · obtain ⟨k, hk⟩ := Nat.exists_eq_succ_of_ne_zero h0
        rw [hk] at hj
        simp at hj
  unfold createTriggerPoint
  dsimp only
  cases objGet objs key with
  | none =>
    dsimp only
    intro td htd m hm
    rcases hmesh _ m hm with h1 | ⟨-, h2⟩
    · exact h td htd m h1
    · exact h2
  | some sound =>
    dsimp only
    obtain ⟨f1, -, -, -, -, -, -, f8, f9⟩ := fields_of_rest (attachToMesh_rest
      { s with meshes := s.meshes ++
          [{ name := meshName, parent := some im, isVisible := s.triggersVisible }] }
      sound s.meshes.length)
    intro td htd m hm
    simp only [f8, f9, f1] at htd hm ⊢
    rcases List.mem_append.1 htd with h1 | h1
    · rcases hmesh _ m hm with h2 | ⟨-, h2⟩
      · exact h td h1 m h2
      · exact h2
    · simp only [List.mem_singleton] at h1
      subst h1
      rcases hmesh _ m hm with h2 | ⟨-, h2⟩
      · have : s.meshes[s.meshes.length]? = none := List.getElem?_eq_none (by omega)
        simp [this] at h2
      · exact h2

theorem createTriggerPoint_fields (s : State) (im : Nat) (objs : List (String × Nat))
    (meshName key : String) (sound : Nat) (h : objGet objs key = some sound) :
    (createTriggerPoint s im objs meshName key).triggers =
      s.triggers ++ [{ trigger := s.meshes.length, sound := some sound, isIntersecting := false }] ∧
    (createTriggerPoint s im objs meshName key).meshes =
      s.meshes ++ [{ name := meshName, parent := some im, isVisible := s.triggersVisible }] := by
  unfold createTriggerPoint
  simp only [h]
  obtain ⟨-, -, -, -, -, -, -, f8, f9⟩ := fields_of_rest (attachToMesh_rest
    { s with meshes := s.meshes ++
        [{ name := meshName, parent := some im, isVisible := s.triggersVisible }] }
    sound s.meshes.length)
  exact ⟨by rw [f8], by rw [f9]⟩

/-- From a scene without triggers and an object with the three keys,
`createTriggerPoints` registers the three spheres in order. -/
theorem createTriggerPoints_createdFromFull (s : State) (im : Nat) (objs : List (String × Nat))
    (a b c : Nat) (hs : s.triggers = [])
    (ha : objGet objs "lung" = some a) (hb : objGet objs "heart" = some b)
    (hc : objGet objs "crackles" = some c) :
    CreatedFromFull (createTriggerPoints s im objs) := by
  unfold createTriggerPoints
  dsimp only
  obtain ⟨t1, m1⟩ := createTriggerPoint_fields s im objs "trigger1" "lung" a ha
  obtain ⟨t2, m2⟩ := createTriggerPoint_fields
    (createTriggerPoint s im objs "trigger1" "lung") im objs "trigger2" "heart" b hb
  obtain ⟨t3, m3⟩ := createTriggerPoint_fields
    (createTriggerPoint (createTriggerPoint s im objs "trigger1" "lung") im objs
      "trigger2" "heart") im objs "trigger3" "crackles" c hc
  unfold CreatedFromFull
  rw [t3, m3, t2, m2, t1, m1, hs]
  simp only [List.nil_append, List.cons_append, List.map_cons, List.map_nil, List.append_assoc,
    List.length_append, List.length_cons, List.length_nil]
  obtain ⟨g0, g1, g2⟩ := getElem?_append_three s.meshes
    { name := "trigger1", parent := some im, isVisible := s.triggersVisible }
    { name := "trigger2", parent := some im,
      isVisible := (createTriggerPoint s im objs "trigger1" "lung").triggersVisible }
    { name := "trigger3", parent := some im,
      isVisible := (createTriggerPoint (createTriggerPoint s im objs "trigger1" "lung") im objs
        "trigger2" "heart").triggersVisible }
    s.meshes.length rfl
  simp only [Nat.zero_add, Nat.reduceAdd] at g0 g1 g2 ⊢
  rw [g0, g1, g2]
  rfl

/-! ## Lemmas on repeated and overlapping switches -/

theorem rebound_full_absorb (n : Nat) (so : List (String × Nat)) (i : Nat) (td : TriggerData) :
    rebound (fullObjects n) i (rebound so i td) = rebound (fullObjects n) i td := by
  match i with
  | 0 =>
    rw [rebound_full_zero, rebound_full_zero]
    unfold rebound
    cases (soundKeyOfIndex 0).bind (objGet so) <;> rfl
  | 1 =>
    rw [rebound_full_one, rebound_full_one]
    unfold rebound
    cases (soundKeyOfIndex 1).bind (objGet so) <;> rfl
  | 2 =>
    rw [rebound_full_two, rebound_full_two]
    unfold rebound
    cases (soundKeyOfIndex 2).bind (objGet so) <;> rfl
  | (j + 3) => simp [rebound, soundKeyOfIndex]

theorem map_rebound_full_absorb (n : Nat) (so : List (String × Nat)) (i : Nat)
    (o : Option TriggerData) :
    (o.map (rebound so i)).map (rebound (fullObjects n) i) = o.map (rebound (fullObjects n) i) := by
  cases o with
  | none => rfl
  | some td => simp [rebound_full_absorb]

/-- A second rebinding right after a rebinding against `fullObjects n`
changes no trigger record and keeps what the instances and globals are. -/
theorem updateTriggerSounds_again (s t : State) (n : Nat)
    (b1 : ∀ i, t.triggers[i]? = (s.triggers[i]?).map (rebound (fullObjects n) i))
    (b5 : t.soundObjects = fullObjects n) :
    (∀ i, (updateTriggerSounds t).triggers[i]? =
      (s.triggers[i]?).map (rebound (fullObjects n) i)) ∧
    (updateTriggerSounds t).meshes = t.meshes ∧
    (updateTriggerSounds t).soundObjects = fullObjects n ∧
    (updateTriggerSounds t).activeCollection = t.activeCollection ∧
    (updateTriggerSounds t).currentlyPlayingText = t.currentlyPlayingText ∧
    (∀ j, isDisposed (updateTriggerSounds t) j = isDisposed t j) ∧
    (∀ j, soundInfo (updateTriggerSounds t) j = soundInfo t j) := by
  obtain ⟨r1, -, r3, r4, -⟩ := updateTriggerSounds_rebinds t
  obtain ⟨-, g2, g3, g4, -, -, -, g8⟩ := fields_of_globals r1
  refine ⟨?_, g8, g3.trans b5, g2, g4, r4, r3⟩
  intro i
  rw [updateTriggerSounds_getElem?, b1 i, b5, map_rebound_full_absorb]

/-- After a call that resolves to `true` the triggers are bound to the
requested collection. -/
theorem boundToCollection_of_load (loads : String → Bool) (s : State) (name : String)
    (hT : CreatedFromFull s)
    (hOk : (loadSoundCollection loads s name).2 = LoadResult.resolved true) :
    BoundToCollection (loadSoundCollection loads s name).1 name := by
  obtain ⟨d0, d1, d2, hc, hEq⟩ := loadSoundCollection_ok loads s name hOk
  rw [hEq]
  obtain ⟨b1, b2, -, -, b5, -, -, b8, b9, b10, b11⟩ :=
    rebind_after_start_facts SOUND_COLLECTIONS s name d0 d1 d2 hc
  obtain ⟨-, h2⟩ := bound_of_facts s _ name s.instances.length d0 d1 d2 hc hT b1 b2 b5 b8 b9 b10 b11
  intro i td hi
  obtain ⟨m, key, id, collection, data, q1, q2, q3, q4, q5, q6, -, q8, q9⟩ := h2 i td hi
  exact ⟨m, key, id, collection, data, q1, q2, q3, q4, q5, q6, q8, q9⟩

/-- The state once two overlapping calls on registered collections have
settled, when at least one `Promise.all` was fulfilled: a rebinding, or two,
of the state at the `await` of the second call. -/
theorem interleaved_facts (s : State) (a b : String) (x y : Bool)
    (d0 d1 d2 e0 e1 e2 : SoundData)
    (ha : objGet SOUND_COLLECTIONS a = some [("lung", d0), ("heart", d1), ("crackles", d2)])
    (hb : objGet SOUND_COLLECTIONS b = some [("lung", e0), ("heart", e1), ("crackles", e2)])
    (hxy : (x || y) = true) :
    (∀ i, (interleaved s a b x y).triggers[i]? =
      (s.triggers[i]?).map (rebound (fullObjects (s.instances.length + 3)) i)) ∧
    (interleaved s a b x y).meshes = s.meshes ∧
    (interleaved s a b x y).soundObjects = fullObjects (s.instances.length + 3) ∧
    (interleaved s a b x y).activeCollection = b ∧
    (∀ k, k < 3 → isDisposed (interleaved s a b x y) (s.instances.length + 3 + k) = false) ∧
    soundInfo (interleaved s a b x y) (s.instances.length + 3) = some (e0.name, e0.url) ∧
    soundInfo (interleaved s a b x y) (s.instances.length + 3 + 1) = some (e1.name, e1.url) ∧
    soundInfo (interleaved s a b x y) (s.instances.length + 3 + 2) = some (e2.name, e2.url) := by
  obtain ⟨a1, a2, -, -, -, -, a7, -, -, -, -⟩ :=
    loadSoundCollectionStart_facts SOUND_COLLECTIONS s a d0 d1 d2 ha
  obtain ⟨b1, b2, -, -, b5, b6, -, b8, b9, b10, b11⟩ :=
    rebind_after_start_facts SOUND_COLLECTIONS
      (loadSoundCollectionStart SOUND_COLLECTIONS s a).1 b e0 e1 e2 hb
  rw [a7] at b1 b5 b8 b9 b10 b11
  rw [a1] at b1
  rw [a2] at b2
  obtain ⟨c1, c2, c3, c4, -, c6, c7⟩ := updateTriggerSounds_again s _ _ b1 b5
  have once : interleaved s a b true false = updateTriggerSounds
      (loadSoundCollectionStart SOUND_COLLECTIONS
        (loadSoundCollectionStart SOUND_COLLECTIONS s a).1 b).1 := rfl
  have once2 : interleaved s a b false true = updateTriggerSounds
      (loadSoundCollectionStart SOUND_COLLECTIONS
        (loadSoundCollectionStart SOUND_COLLECTIONS s a).1 b).1 := rfl
  have twice : interleaved s a b true true = updateTriggerSounds (updateTriggerSounds
      (loadSoundCollectionStart SOUND_COLLECTIONS
        (loadSoundCollectionStart SOUND_COLLECTIONS s a).1 b).1) := rfl
  cases x <;> cases y
  · simp at hxy
  · rw [once2]; exact ⟨b1, b2, b5, b6, b8, b9, b10, b11⟩
  · rw [once]; exact ⟨b1, b2, b5, b6, b8, b9, b10, b11⟩
  · rw [twice]
    exact ⟨c1, c2.trans b2, c3, c4.trans b6, fun k hk => (c6 _).trans (b8 k hk),
      (c7 _).trans b9, (c7 _).trans b10, (c7 _).trans b11⟩


/-! ## Claims on the intersection handlers -/

/-- C1, amended: for every finite sequence of enter/exit events delivered for
a single (controller, trigger) pair whose trigger is bound to a sound that is
live (not disposed) and not playing at the start, after each event (after
every prefix `events.take n`) the sound's `isPlaying` flag equals whether the
controller intersects the trigger, that is whether the most recent event was
an enter. -/
theorem C1_playing_iff_intersecting (s : State) (controller index sound : Nat) (snd : Sound)
    (hB : BoundTo s index sound snd) (hL : snd.disposed = false)
    (hP : snd.isPlaying = false) (events : List Event)
    (hE : ∀ e ∈ events, e = Event.enter controller index ∨ e = Event.exit controller index)
    (n : Nat) :
    isPlaying (run s (events.take n)) sound = intersecting (events.take n) := by
  have hT : ∀ e ∈ events.take n, e.trigger = index := by
    intro e he
    rcases hE e (List.mem_of_mem_take he) with h | h <;> simp [h, Event.trigger]
  obtain ⟨snd2, hB2, -, hP2⟩ := run_live s index sound snd hB hL (events.take n) hT
  rw [isPlaying_of_boundTo _ _ _ _ hB2, hP2]
  by_cases h : events.take n = []
  · simp [h, hP, intersecting]
  · simp [h]

theorem C1_playing_iff_intersecting_witness :
    isPlaying (run startedState
        ([Event.enter 0 0, Event.exit 0 0, Event.exit 0 0, Event.enter 0 0].take 3)) 0
      = intersecting ([Event.enter 0 0, Event.exit 0 0, Event.exit 0 0, Event.enter 0 0].take 3) :=
  C1_playing_iff_intersecting startedState 0 0 0
    { name := "Normal Bronchial", url := "assets/audio/Bronchial.mp3", isPlaying := false,
      disposed := false, attachedMesh := some 0 }
    ⟨⟨_, rfl, rfl⟩, rfl⟩ rfl rfl
    [Event.enter 0 0, Event.exit 0 0, Event.exit 0 0, Event.enter 0 0] (by decide) 3

/-- C2 as stated fails: with the triggers bound to the loaded normal
collection, after controllers 0 and 1 have both entered trigger 0 and only
controller 0 has left, the sound of trigger 0 is not playing. -/
theorem C2_counterexample :
    ¬ (isPlaying (run startedState [Event.enter 0 0, Event.enter 1 0, Event.exit 0 0]) 0 = true) := by
  decide

/-- C2, amended: for two distinct controllers and one trigger bound to a live
sound, the sound plays once both have entered, it is stopped by the exit of
only one of them, and it is still stopped when the other one has left too. -/
theorem C2_any_exit_stops (s : State) (c1 c2 index sound : Nat) (snd : Sound)
    (hB : BoundTo s index sound snd) (hL : snd.disposed = false) (_hC : c1 ≠ c2) :
    isPlaying (run s [Event.enter c1 index, Event.enter c2 index]) sound = true ∧
    isPlaying (run s [Event.enter c1 index, Event.enter c2 index, Event.exit c1 index]) sound
      = false ∧
    isPlaying (run s [Event.enter c1 index, Event.enter c2 index, Event.exit c1 index,
      Event.exit c2 index]) sound = false := by
  have key : ∀ events : List Event, events ≠ [] → (∀ e ∈ events, e.trigger = index) →
      isPlaying (run s events) sound = intersecting events := by
    intro events hne hE
    obtain ⟨snd2, hB2, -, hP2⟩ := run_live s index sound snd hB hL events hE
    rw [isPlaying_of_boundTo _ _ _ _ hB2, hP2]
    simp [hne]
  refine ⟨?_, ?_, ?_⟩
  · rw [key _ (by simp) (by simp [Event.trigger])]; simp [intersecting, Event.isEnter]
  · rw [key _ (by simp) (by simp [Event.trigger])]; simp [intersecting, Event.isEnter]
  · rw [key _ (by simp) (by simp [Event.trigger])]; simp [intersecting, Event.isEnter]

theorem C2_any_exit_stops_witness :
    isPlaying (run startedState [Event.enter 0 1, Event.enter 1 1]) 1 = true ∧
    isPlaying (run startedState [Event.enter 0 1, Event.enter 1 1, Event.exit 0 1]) 1 = false ∧
    isPlaying (run startedState [Event.enter 0 1, Event.enter 1 1, Event.exit 0 1,
      Event.exit 1 1]) 1 = false :=
  C2_any_exit_stops startedState 0 1 1 1
    { name := "Normal Heart", url := "assets/audio/Normal_heart.mp3", isPlaying := false,
      disposed := false, attachedMesh := some 1 }
    ⟨⟨_, rfl, rfl⟩, rfl⟩ rfl (by decide)

/-- C8, amended: in any state an enter on a trigger whose sound is playing
changes nothing (no play call, label included), and an exit on a trigger
whose sound is not playing changes nothing (no stop call); and for every
sequence of enter/exit events from any controllers on one trigger bound to a
sound that is live (not disposed) and not playing at the start, the calls
issued are play and stop calls on that sound which strictly alternate,
beginning with play. -/
theorem C8_play_stop_alternate (s : State) (index sound : Nat) (snd : Sound)
    (hB : BoundTo s index sound snd) (hL : snd.disposed = false)
    (hP : snd.isPlaying = false) (events : List Event)
    (hE : ∀ e ∈ events, e.trigger = index) :
    (∃ new, (run s events).calls = s.calls ++ new ∧
      (∀ c ∈ new, c = Call.play sound ∨ c = Call.stop sound) ∧
      alternates true (playStopCalls sound new) = true) ∧
    (∀ (st : State) (sd : Sound) (c : Nat), BoundTo st index sound sd →
      sd.isPlaying = true → handle st (Event.enter c index) = st) ∧
    (∀ (st : State) (sd : Sound) (c : Nat), BoundTo st index sound sd →
      sd.isPlaying = false → handle st (Event.exit c index) = st) := by
  refine ⟨?_, ?_, ?_⟩
  · obtain ⟨new, h1, h2, h3⟩ := run_calls events s index sound snd hB hL hE
    exact ⟨new, h1, h2, by simpa [hP] using h3⟩
  · intro st sd c hb hp
    show enterAction st index = st
    rw [enterAction_eq st index sound sd hb, hp]; simp
  · intro st sd c hb hp
    show exitAction st index = st
    rw [exitAction_eq st index sound sd hb, hp]; simp

theorem C8_play_stop_alternate_witness :
    (∃ new, (run startedState [Event.enter 0 2, Event.enter 1 2, Event.exit 1 2,
        Event.exit 0 2, Event.enter 1 2]).calls = startedState.calls ++ new ∧
      (∀ c ∈ new, c = Call.play 2 ∨ c = Call.stop 2) ∧
      alternates true (playStopCalls 2 new) = true) ∧
    (∀ (st : State) (sd : Sound) (c : Nat), BoundTo st 2 2 sd →
      sd.isPlaying = true → handle st (Event.enter c 2) = st) ∧
    (∀ (st : State) (sd : Sound) (c : Nat), BoundTo st 2 2 sd →
      sd.isPlaying = false → handle st (Event.exit c 2) = st) :=
  C8_play_stop_alternate startedState 2 2
    { name := "Fine Crackles", url := "assets/audio/Crackles_Fine.mp3", isPlaying := false,
      disposed := false, attachedMesh := some 2 }
    ⟨⟨_, rfl, rfl⟩, rfl⟩ rfl rfl
    [Event.enter 0 2, Event.enter 1 2, Event.exit 1 2, Event.exit 0 2, Event.enter 1 2]
    (by decide)

/-! ## Claims on the collection switch -/

/-- C4: for every state whose registered triggers are the three spheres made
by `createTriggerPoints` from a full collection, and every call of
`loadSoundCollection` that resolves to `true`: the requested collection is
registered and active, and each of the three triggers is bound to the instance
stored in `sounds.soundObjects` under the key its sphere was created for; that
instance was created by the call (its index is not below the old size of the
store), carries the name and url of the collection's entry for that key, and
is not disposed. -/
theorem C4_triggers_rebound_to_new_instances (loads : String → Bool) (s : State) (name : String)
    (hT : CreatedFromFull s)
    (hOk : (loadSoundCollection loads s name).2 = LoadResult.resolved true) :
    (loadSoundCollection loads s name).1.activeCollection = name ∧
    (loadSoundCollection loads s name).1.triggers.length = 3 ∧
    ∀ (i : Nat) (td : TriggerData),
      (loadSoundCollection loads s name).1.triggers[i]? = some td →
      ∃ (m : Mesh) (key : String) (id : Nat) (collection : List (String × SoundData))
        (data : SoundData),
        (loadSoundCollection loads s name).1.meshes[td.trigger]? = some m ∧
        keyOfMeshName m.name = some key ∧
        objGet SOUND_COLLECTIONS name = some collection ∧
        objGet collection key = some data ∧
        objGet (loadSoundCollection loads s name).1.soundObjects key = some id ∧
        td.sound = some id ∧
        s.instances.length ≤ id ∧
        soundInfo (loadSoundCollection loads s name).1 id = some (data.name, data.url) ∧
        isDisposed (loadSoundCollection loads s name).1 id = false := by
  obtain ⟨d0, d1, d2, hc, hEq⟩ := loadSoundCollection_ok loads s name hOk
  rw [hEq]
  obtain ⟨b1, b2, -, -, b5, b6, -, b8, b9, b10, b11⟩ :=
    rebind_after_start_facts SOUND_COLLECTIONS s name d0 d1 d2 hc
  obtain ⟨h1, h2⟩ := bound_of_facts s _ name s.instances.length d0 d1 d2 hc hT b1 b2 b5 b8 b9 b10 b11
  exact ⟨b6, h1, h2⟩

theorem C4_triggers_rebound_to_new_instances_witness :
    CreatedFromFull startedState ∧
    (loadSoundCollection (fun _ => true) startedState "intermediate").1.activeCollection
      = "intermediate" ∧
    (loadSoundCollection (fun _ => true) startedState "intermediate").1.triggers.length = 3 ∧
    ∀ (i : Nat) (td : TriggerData),
      (loadSoundCollection (fun _ => true) startedState "intermediate").1.triggers[i]? = some td →
      ∃ (m : Mesh) (key : String) (id : Nat) (collection : List (String × SoundData))
        (data : SoundData),
        (loadSoundCollection (fun _ => true) startedState "intermediate").1.meshes[td.trigger]?
          = some m ∧
        keyOfMeshName m.name = some key ∧
        objGet SOUND_COLLECTIONS "intermediate" = some collection ∧
        objGet collection key = some data ∧
        objGet (loadSoundCollection (fun _ => true) startedState "intermediate").1.soundObjects key
          = some id ∧
        td.sound = some id ∧
        startedState.instances.length ≤ id ∧
        soundInfo (loadSoundCollection (fun _ => true) startedState "intermediate").1 id
          = some (data.name, data.url) ∧
        isDisposed (loadSoundCollection (fun _ => true) startedState "intermediate").1 id = false :=
  ⟨by decide,
    C4_triggers_rebound_to_new_instances (fun _ => true) startedState "intermediate"
      (by decide) (by decide)⟩

/-- C3 as stated fails: from the started state (normal collection active, its
three instances live), a load of the intermediate collection in which the
heart sound fails resolves to `false` and a load of the unregistered name
`advanced` is rejected; both leave the requested name active and the first
previous instance disposed. -/
theorem C3_counterexample :
    (loadSoundCollection (fun url => decide (url ≠ "assets/audio/Third_heart.mp3"))
      startedState "intermediate").2 = LoadResult.resolved false ∧
    (loadSoundCollection (fun url => decide (url ≠ "assets/audio/Third_heart.mp3"))
      startedState "intermediate").1 ≠ startedState ∧
    (loadSoundCollection (fun url => decide (url ≠ "assets/audio/Third_heart.mp3"))
      startedState "intermediate").1.activeCollection = "intermediate" ∧
    startedState.activeCollection = "normal" ∧
    isDisposed startedState 0 = false ∧
    isDisposed (loadSoundCollection (fun url => decide (url ≠ "assets/audio/Third_heart.mp3"))
      startedState "intermediate").1 0 = true ∧
    (loadSoundCollection (fun _ => true) startedState "advanced").2 = LoadResult.rejected ∧
    (loadSoundCollection (fun _ => true) startedState "advanced").1.activeCollection
      = "advanced" ∧
    (loadSoundCollection (fun _ => true) startedState "advanced").1.soundObjects = [] ∧
    isDisposed (loadSoundCollection (fun _ => true) startedState "advanced").1 0 = true := by
  decide

/-- C3, amended: for every call of `loadSoundCollection` that fails (it
resolves to `false` or is rejected), every trigger record, so every trigger's
bound sound, and the label are unchanged; but the requested name is the active
collection, every previously active instance is disposed, and stopped if it
was live, and `sounds.soundObjects` holds only instances created by the
call. -/
theorem C3_failure_keeps_bindings_only (loads : String → Bool) (s : State) (name : String)
    (hFail : (loadSoundCollection loads s name).2 ≠ LoadResult.resolved true) :
    (loadSoundCollection loads s name).1.triggers = s.triggers ∧
    (loadSoundCollection loads s name).1.currentlyPlayingText = s.currentlyPlayingText ∧
    (loadSoundCollection loads s name).1.activeCollection = name ∧
    (∀ (key : String) (id : Nat), objGet s.soundObjects key = some id →
      id < s.instances.length →
      isDisposed (loadSoundCollection loads s name).1 id = true ∧
      (isDisposed s id = false → isPlaying (loadSoundCollection loads s name).1 id = false)) ∧
    (∀ (key : String) (id : Nat),
      objGet (loadSoundCollection loads s name).1.soundObjects key = some id →
      s.instances.length ≤ id) := by
  rw [loadSoundCollection_failed loads s name hFail]
  obtain ⟨h1, -, h3, h4, -, h6, h7⟩ := loadSoundCollectionStart_effects s name
  exact ⟨h1, h3, h4, h6, h7⟩

theorem C3_failure_keeps_bindings_only_witness :
    (loadSoundCollection (fun _ => false) startedState "intermediate").1.triggers
      = startedState.triggers ∧
    (loadSoundCollection (fun _ => false) startedState "intermediate").1.currentlyPlayingText
      = startedState.currentlyPlayingText ∧
    (loadSoundCollection (fun _ => false) startedState "intermediate").1.activeCollection
      = "intermediate" ∧
    (∀ (key : String) (id : Nat), objGet startedState.soundObjects key = some id →
      id < startedState.instances.length →
      isDisposed (loadSoundCollection (fun _ => false) startedState "intermediate").1 id = true ∧
      (isDisposed startedState id = false →
        isPlaying (loadSoundCollection (fun _ => false) startedState "intermediate").1 id
          = false)) ∧
    (∀ (key : String) (id : Nat),
      objGet (loadSoundCollection (fun _ => false) startedState "intermediate").1.soundObjects key
        = some id →
      startedState.instances.length ≤ id) :=
  C3_failure_keeps_bindings_only (fun _ => false) startedState "intermediate" (by decide)

/-- C7 as stated fails: in the switch from the started state to the
intermediate collection, the calls of the switch do not have every dispose of
a previous instance after every `attachToMesh` of the rebinding: the first
call is `dispose 0`, the fourth is `attachToMesh 3 0`. -/
theorem C7_counterexample :
    ¬ DisposeAfterRebinding (objValues startedState.soundObjects)
      ((loadSoundCollection (fun _ => true) startedState "intermediate").1.calls.drop
        startedState.calls.length) := by
  intro h
  have h03 := h 0 3 0 3 0 (Or.inl (by decide)) (by decide) (by decide)
  omega

/-- C7, amended: in every call of `loadSoundCollection` the stop and dispose
calls on the previous instances are issued first: the calls of the switch
split into a first part, made before the `await` while the triggers still
have their old records, which consists of stop and dispose calls on the
instances of `sounds.soundObjects` and disposes each of them, and a second
part, the rebinding, which has only stop and `attachToMesh` calls. -/
theorem C7_dispose_before_rebinding (loads : String → Bool) (s : State) (name : String) :
    ∃ pre post,
      (loadSoundCollection loads s name).1.calls = s.calls ++ pre ++ post ∧
      (loadSoundCollectionStart SOUND_COLLECTIONS s name).1.calls = s.calls ++ pre ∧
      (loadSoundCollectionStart SOUND_COLLECTIONS s name).1.triggers = s.triggers ∧
      (∀ c ∈ pre, ∃ id ∈ objValues s.soundObjects, c = Call.stop id ∨ c = Call.dispose id) ∧
      (∀ id ∈ objValues s.soundObjects, Call.dispose id ∈ pre) ∧
      (∀ c ∈ post, c.isRebinding = true) := by
  obtain ⟨pre, p1, p2, p3⟩ := foldl_disposeSound_calls (objValues s.soundObjects) s
  obtain ⟨e1, -, -, -, e5, -, -⟩ := loadSoundCollectionStart_effects s name
  have hstart : (loadSoundCollectionStart SOUND_COLLECTIONS s name).1.calls = s.calls ++ pre := by
    rw [e5]; exact p1
  by_cases hOk : (loadSoundCollection loads s name).2 = LoadResult.resolved true
  · obtain ⟨d0, d1, d2, -, hEq⟩ := loadSoundCollection_ok loads s name hOk
    obtain ⟨-, -, -, -, post, q1, q2⟩ :=
      updateTriggerSounds_rebinds (loadSoundCollectionStart SOUND_COLLECTIONS s name).1
    exact ⟨pre, post, by rw [hEq, q1, hstart], hstart, e1, p2, p3, q2⟩
  · refine ⟨pre, [], ?_, hstart, e1, p2, p3, by simp⟩
    rw [loadSoundCollection_failed loads s name hOk, hstart]; simp

/-- C5 as stated fails: after a successful load of a `normal` collection that
has no `crackles` entry, trigger 2 is still bound, to the disposed instance 2
of the previous collection, and an enter event on it issues a play call on
that instance and changes the label. -/
theorem C5_counterexample :
    afterPartialLoad.activeCollection = "normal" ∧
    objGet afterPartialLoad.soundObjects "crackles" = none ∧
    (afterPartialLoad.triggers[2]?).map (fun td => td.sound) = some (some 2) ∧
    isDisposed afterPartialLoad 2 = true ∧
    (enterAction afterPartialLoad 2).calls = afterPartialLoad.calls ++ [Call.play 2] ∧
    afterPartialLoad.currentlyPlayingText = some "Currently: No sound playing" ∧
    (enterAction afterPartialLoad 2).currentlyPlayingText = some "Currently: Fine Crackles" := by
  decide

/-- C5, amended: for every trigger and every state whose `sounds.soundObjects`
has no sound under the key `updateTriggerSounds` looks up for that trigger,
rebinding leaves the trigger's record, so its binding, as it was; only a
trigger that was unbound before is unbound afterwards, and then an enter
event on it issues no call and changes no state. Rebinding is a total
function: it raises no error. -/
theorem C5_missing_key_keeps_binding (s : State) (index : Nat)
    (hMiss : (soundKeyOfIndex index).bind (objGet s.soundObjects) = none) :
    (updateTriggerSounds s).triggers[index]? = s.triggers[index]? ∧
    ∀ td, s.triggers[index]? = some td → td.sound = none →
      enterAction (updateTriggerSounds s) index = updateTriggerSounds s := by
  have h : (updateTriggerSounds s).triggers[index]? = s.triggers[index]? := by
    rw [updateTriggerSounds_getElem?]
    cases s.triggers[index]? with
    | none => rfl
    | some td => simp [rebound, hMiss]
  refine ⟨h, ?_⟩
  intro td htd hs
  unfold enterAction
  rw [h, htd]
  simp [hs]

theorem C5_missing_key_keeps_binding_witness :
    (updateTriggerSounds { startedState with soundObjects := [("lung", 0), ("heart", 1)] }).triggers[2]?
      = ({ startedState with soundObjects := [("lung", 0), ("heart", 1)] } : State).triggers[2]? ∧
    ∀ td, ({ startedState with soundObjects := [("lung", 0), ("heart", 1)] } : State).triggers[2]?
        = some td → td.sound = none →
      enterAction (updateTriggerSounds { startedState with soundObjects := [("lung", 0), ("heart", 1)] }) 2
        = updateTriggerSounds { startedState with soundObjects := [("lung", 0), ("heart", 1)] } :=
  C5_missing_key_keeps_binding { startedState with soundObjects := [("lung", 0), ("heart", 1)] } 2
    (by decide)

/-! ## Claims on the visibility button -/

/-- C10: every press of the visibility button negates `triggersVisible` and
sets `isVisible` of the sphere of every registered trigger to the new value;
the trigger records (so every bound sound), the sound instances (so every
playing flag), the active collection, `sounds.soundObjects`, the
currently-playing label and the trace of sound calls are unchanged. After a
press every registered trigger's `isVisible` equals `triggersVisible`, and
`createTriggerPoints` keeps that invariant. -/
theorem C10_visibility_toggle (s : State) (importedMesh : Nat) (soundObjects : List (String × Nat)) :
    (visibilityButtonPress s).triggersVisible = (!s.triggersVisible) ∧
    (∀ td ∈ s.triggers, ∀ m, s.meshes[td.trigger]? = some m →
      (visibilityButtonPress s).meshes[td.trigger]?
        = some { m with isVisible := !s.triggersVisible }) ∧
    (visibilityButtonPress s).triggers = s.triggers ∧
    (visibilityButtonPress s).instances = s.instances ∧
    (visibilityButtonPress s).activeCollection = s.activeCollection ∧
    (visibilityButtonPress s).soundObjects = s.soundObjects ∧
    (visibilityButtonPress s).currentlyPlayingText = s.currentlyPlayingText ∧
    (visibilityButtonPress s).calls = s.calls ∧
    VisibleInv (visibilityButtonPress s) ∧
    (VisibleInv s → VisibleInv (createTriggerPoints s importedMesh soundObjects)) := by
  obtain ⟨h1, h2, h3, h4, -, h6, h7, h8⟩ := foldl_setVisible_frame s.triggers
    { s with triggersVisible := !s.triggersVisible,
             visibilityText := some (visibilityLabel (!s.triggersVisible)) } (!s.triggersVisible)
  have hm := foldl_setVisible_getElem? s.triggers
    { s with triggersVisible := !s.triggersVisible,
             visibilityText := some (visibilityLabel (!s.triggersVisible)) } (!s.triggersVisible)
  have hpress : visibilityButtonPress s =
      s.triggers.foldl (fun st td => setVisible st td.trigger (!s.triggersVisible))
        { s with triggersVisible := !s.triggersVisible,
                 visibilityText := some (visibilityLabel (!s.triggersVisible)) } := rfl
  have key : ∀ td ∈ s.triggers, ∀ m, s.meshes[td.trigger]? = some m →
      (visibilityButtonPress s).meshes[td.trigger]?
        = some { m with isVisible := !s.triggersVisible } := by
    intro td htd m hmm
    have hin : td.trigger ∈ s.triggers.map (fun td => td.trigger) := List.mem_map_of_mem _ htd
    rw [hpress, hm td.trigger]
    simp [hmm, hin]
  refine ⟨h1, key, h6, h7, h2, h3, h4, h8, ?_, ?_⟩
  · intro td htd m hmm
    have htd2 : td ∈ s.triggers := by rw [← h6]; exact htd
    have hv : (visibilityButtonPress s).triggersVisible = (!s.triggersVisible) := h1
    rw [hv]
    cases hold : s.meshes[td.trigger]? with
    | none =>
      have : (visibilityButtonPress s).meshes[td.trigger]? = none := by
        rw [hpress, hm td.trigger]
        simp [hold]
      rw [this] at hmm
      cases hmm
    | some m0 =>
      rw [key td htd2 m0 hold] at hmm
      simp only [Option.some.injEq] at hmm
      subst hmm
      rfl
  · intro hinv
    unfold createTriggerPoints
    exact createTriggerPoint_visibleInv _ _ _ _ _
      (createTriggerPoint_visibleInv _ _ _ _ _ (createTriggerPoint_visibleInv _ _ _ _ _ hinv))

theorem C10_visibility_toggle_witness :
    VisibleInv initialState ∧
    VisibleInv (createTriggerPoints initialState 0 [("lung", 0), ("heart", 1), ("crackles", 2)]) :=
  ⟨by intro td htd; simp [initialState] at htd,
    (C10_visibility_toggle initialState 0 [("lung", 0), ("heart", 1), ("crackles", 2)]).2.2.2.2.2.2.2.2.2
      (by intro td htd; simp [initialState] at htd)⟩

/-! ## Claims on repeated and overlapping switches -/

/-- C6: from a state where collection `a` is active and the three triggers are
bound to its instances, if `loadSoundCollection(b)` and then
`loadSoundCollection(a)` both resolve to `true`, then `a` is active again, the
label text is the one of before, and every trigger is bound, under the same
key of `sounds.soundObjects`, to an instance with the same name and url as the
one it was bound to before the two switches. -/
theorem C6_round_trip (loads : String → Bool) (s : State) (a b : String)
    (hA : s.activeCollection = a) (hT : CreatedFromFull s) (hB : BoundToCollection s a)
    (hOk1 : (loadSoundCollection loads s b).2 = LoadResult.resolved true)
    (hOk2 : (loadSoundCollection loads (loadSoundCollection loads s b).1 a).2
      = LoadResult.resolved true) :
    (loadSoundCollection loads (loadSoundCollection loads s b).1 a).1.activeCollection
      = s.activeCollection ∧
    (loadSoundCollection loads (loadSoundCollection loads s b).1 a).1.currentlyPlayingText
      = s.currentlyPlayingText ∧
    (loadSoundCollection loads (loadSoundCollection loads s b).1 a).1.triggers.length
      = s.triggers.length ∧
    BoundToCollection (loadSoundCollection loads (loadSoundCollection loads s b).1 a).1 a ∧
    ∀ (i : Nat) (td : TriggerData), s.triggers[i]? = some td →
      ∃ (td2 : TriggerData) (m : Mesh) (key : String) (id id2 : Nat) (info : String × String),
        (loadSoundCollection loads (loadSoundCollection loads s b).1 a).1.triggers[i]? = some td2 ∧
        td2.trigger = td.trigger ∧
        s.meshes[td.trigger]? = some m ∧
        keyOfMeshName m.name = some key ∧
        objGet s.soundObjects key = some id ∧ td.sound = some id ∧
        objGet (loadSoundCollection loads (loadSoundCollection loads s b).1 a).1.soundObjects key
          = some id2 ∧
        td2.sound = some id2 ∧
        soundInfo s id = some info ∧
        soundInfo (loadSoundCollection loads (loadSoundCollection loads s b).1 a).1 id2
          = some info := by
  obtain ⟨e0, e1, e2, hcb, hEq1⟩ := loadSoundCollection_ok loads s b hOk1
  obtain ⟨d0, d1, d2, hca, hEq2⟩ := loadSoundCollection_ok loads _ a hOk2
  obtain ⟨m1, m2, m3, -, -, -, -, -, -, -, -⟩ :=
    rebind_after_start_facts SOUND_COLLECTIONS s b e0 e1 e2 hcb
  rw [← hEq1] at m1 m2 m3
  obtain ⟨b1, b2, b3, -, b5, b6, -, b8, b9, b10, b11⟩ :=
    rebind_after_start_facts SOUND_COLLECTIONS (loadSoundCollection loads s b).1 a d0 d1 d2 hca
  rw [← hEq2] at b1 b2 b3 b5 b6 b8 b9 b10 b11
  have c1 : ∀ i, (loadSoundCollection loads (loadSoundCollection loads s b).1 a).1.triggers[i]? =
      (s.triggers[i]?).map
        (rebound (fullObjects (loadSoundCollection loads s b).1.instances.length) i) := by
    intro i
    rw [b1 i, m1 i, map_rebound_full_absorb]
  obtain ⟨hlen, hbound⟩ := bound_of_facts s _ a _ d0 d1 d2 hca hT c1 (b2.trans m2) b5 b8 b9 b10 b11
  have hslen : s.triggers.length = 3 := by
    have := congrArg List.length hT
    simpa [CreatedFromFull] using this
  refine ⟨b6.trans hA.symm, b3.trans m3, hlen.trans hslen.symm, ?_, ?_⟩
  · intro i td hi
    obtain ⟨m, key, id, collection, data, q1, q2, q3, q4, q5, q6, -, q8, q9⟩ := hbound i td hi
    exact ⟨m, key, id, collection, data, q1, q2, q3, q4, q5, q6, q8, q9⟩
  · intro i td hi
    have hi2 := c1 i
    rw [hi] at hi2
    simp only [Option.map_some'] at hi2
    obtain ⟨m, key, id2, collection, data, q1, q2, q3, q4, q5, q6, -, q8, -⟩ := hbound i _ hi2
    have htrig : (rebound (fullObjects (loadSoundCollection loads s b).1.instances.length) i
        td).trigger = td.trigger := by
      unfold rebound
      cases (soundKeyOfIndex i).bind
        (objGet (fullObjects (loadSoundCollection loads s b).1.instances.length)) <;> rfl
    obtain ⟨m0, key0, id, collection0, data0, p1, p2, p3, p4, p5, p6, p7, -⟩ := hB i td hi
    rw [htrig, b2, m2, p1] at q1
    simp only [Option.some.injEq] at q1
    subst q1
    rw [p2] at q2
    simp only [Option.some.injEq] at q2
    subst q2
    rw [p3] at q3
    simp only [Option.some.injEq] at q3
    subst q3
    rw [p4] at q4
    simp only [Option.some.injEq] at q4
    subst q4
    exact ⟨_, m0, key0, id, id2, (data0.name, data0.url), hi2, htrig, p1, p2, p5, p6, q5, q6,
      p7, q8⟩

theorem C6_round_trip_witness :
    (loadSoundCollection (fun _ => true)
      (loadSoundCollection (fun _ => true)
        (loadSoundCollection (fun _ => true) startedState "normal").1 "intermediate").1
      "normal").1.activeCollection
      = (loadSoundCollection (fun _ => true) startedState "normal").1.activeCollection ∧
    (loadSoundCollection (fun _ => true)
      (loadSoundCollection (fun _ => true)
        (loadSoundCollection (fun _ => true) startedState "normal").1 "intermediate").1
      "normal").1.currentlyPlayingText
      = (loadSoundCollection (fun _ => true) startedState "normal").1.currentlyPlayingText :=
  ⟨(C6_round_trip (fun _ => true) (loadSoundCollection (fun _ => true) startedState "normal").1
      "normal" "intermediate" (by decide) (by decide)
      (boundToCollection_of_load (fun _ => true) startedState "normal" (by decide) (by decide))
      (by decide) (by decide)).1,
    (C6_round_trip (fun _ => true) (loadSoundCollection (fun _ => true) startedState "normal").1
      "normal" "intermediate" (by decide) (by decide)
      (boundToCollection_of_load (fun _ => true) startedState "normal" (by decide) (by decide))
      (by decide) (by decide)).2.1⟩

/-- C9 as stated fails: from the started state, a switch to the intermediate
collection overlapped by a switch back to normal, with a sound failing to load
in both, settles with `normal` active and `sounds.soundObjects` holding the
instances 6, 7, 8 of the second call, while trigger 0 is still bound to
instance 0 of the collection loaded at start-up, which is disposed. -/
theorem C9_counterexample :
    (interleaved startedState "intermediate" "normal" false false).activeCollection = "normal" ∧
    (interleaved startedState "intermediate" "normal" false false).soundObjects
      = [("lung", 6), ("heart", 7), ("crackles", 8)] ∧
    ((interleaved startedState "intermediate" "normal" false false).triggers[0]?).map
      (fun td => td.sound) = some (some 0) ∧
    isDisposed (interleaved startedState "intermediate" "normal" false false) 0 = true := by
  decide

/-- C9, amended: if `loadSoundCollection(b)` is invoked while an earlier
`loadSoundCollection(a)` awaits its loads, both names being registered and the
triggers being the three of `createTriggerPoints`, and the loads of at least
one of the two calls are all fulfilled, then once both continuations have run
the state is not mixed: `b` is active, every entry of `sounds.soundObjects` is
an instance created by the call for `b` from `b`'s entry for its key and is
not disposed, and every trigger is bound to the entry for its key. -/
theorem C9_overlapping_switches (s : State) (a b : String) (first second : Bool)
    (hT : CreatedFromFull s)
    (ha : (objGet SOUND_COLLECTIONS a).isSome = true)
    (hb : (objGet SOUND_COLLECTIONS b).isSome = true)
    (hOne : (first || second) = true) :
    (interleaved s a b first second).activeCollection = b ∧
    (interleaved s a b first second).triggers.length = 3 ∧
    BoundToCollection (interleaved s a b first second) b ∧
    ∀ (key : String) (id : Nat),
      objGet (interleaved s a b first second).soundObjects key = some id →
      ∃ (collection : List (String × SoundData)) (data : SoundData),
        objGet SOUND_COLLECTIONS b = some collection ∧
        objGet collection key = some data ∧
        (loadSoundCollectionStart SOUND_COLLECTIONS s a).1.instances.length ≤ id ∧
        soundInfo (interleaved s a b first second) id = some (data.name, data.url) ∧
        isDisposed (interleaved s a b first second) id = false := by
  obtain ⟨ca, hca⟩ := Option.isSome_iff_exists.1 ha
  obtain ⟨cb, hcb⟩ := Option.isSome_iff_exists.1 hb
  obtain ⟨d0, d1, d2, rfl⟩ := registered_full a ca hca
  obtain ⟨e0, e1, e2, rfl⟩ := registered_full b cb hcb
  obtain ⟨b1, b2, b5, b6, b8, b9, b10, b11⟩ :=
    interleaved_facts s a b first second d0 d1 d2 e0 e1 e2 hca hcb hOne
  obtain ⟨hlen, hbound⟩ := bound_of_facts s _ b _ e0 e1 e2 hcb hT b1 b2 b5 b8 b9 b10 b11
  obtain ⟨-, -, -, -, -, -, a7, -, -, -, -⟩ :=
    loadSoundCollectionStart_facts SOUND_COLLECTIONS s a d0 d1 d2 hca
  refine ⟨b6, hlen, ?_, ?_⟩
  · intro i td hi
    obtain ⟨m, key, id, collection, data, q1, q2, q3, q4, q5, q6, -, q8, q9⟩ := hbound i td hi
    exact ⟨m, key, id, collection, data, q1, q2, q3, q4, q5, q6, q8, q9⟩
  · intro key id hk
    rw [b5] at hk
    rw [a7]
    simp only [fullObjects, objGet] at hk
    split at hk
    · rename_i hkey
      simp only [Option.some.injEq] at hk
      subst hk; subst hkey
      exact ⟨_, e0, hcb, by simp [objGet], le_refl _, b9, b8 0 (by omega)⟩
    · split at hk
      · rename_i hkey
        simp only [Option.some.injEq] at hk
        subst hk; subst hkey
        exact ⟨_, e1, hcb, by simp [objGet], by omega, b10, b8 1 (by omega)⟩
      · split at hk
        · rename_i hkey
          simp only [Option.some.injEq] at hk
          subst hk; subst hkey
          exact ⟨_, e2, hcb, by simp [objGet], by omega, b11, b8 2 (by omega)⟩
        · cases hk

theorem C9_overlapping_switches_witness :
    (interleaved startedState "intermediate" "normal" false true).activeCollection = "normal" ∧
    (interleaved startedState "intermediate" "normal" false true).triggers.length = 3 ∧
    BoundToCollection (interleaved startedState "intermediate" "normal" false true) "normal" ∧
    ∀ (key : String) (id : Nat),
      objGet (interleaved startedState "intermediate" "normal" false true).soundObjects key
        = some id →
      ∃ (collection : List (String × SoundData)) (data : SoundData),
        objGet SOUND_COLLECTIONS "normal" = some collection ∧
        objGet collection key = some data ∧
        (loadSoundCollectionStart SOUND_COLLECTIONS startedState "intermediate").1.instances.length
          ≤ id ∧
        soundInfo (interleaved startedState "intermediate" "normal" false true) id
          = some (data.name, data.url) ∧
        isDisposed (interleaved startedState "intermediate" "normal" false true) id = false :=
  C9_overlapping_switches startedState "intermediate" "normal" false true
    (by decide) (by decide) (by decide) (by decide)

/-! ## Lemmas on the label -/

theorem currently_append_inj (a b : String) (h : "Currently: " ++ a = "Currently: " ++ b) :
    a = b := by
  have hd := congrArg String.data h
  rw [String.data_append, String.data_append] at hd
  exact String.ext (List.append_cancel_left hd)

theorem idleText_eq : "Currently: " ++ "No sound playing" = idleText := by
  decide

theorem updateCurrentlyPlayingText_label (s : State) (text : String)
    (h : s.currentlyPlayingText.isSome = true) :
    (updateCurrentlyPlayingText s text).currentlyPlayingText = some ("Currently: " ++ text) := by
  unfold updateCurrentlyPlayingText
  cases hc : s.currentlyPlayingText with
  | none => simp [hc] at h
  | some _ => rfl

/-- An intersection handler either changes nothing, or starts the bound sound
that was not playing and names it in the label, or stops the bound sound that
was playing and writes the idle label. -/
theorem handle_cases (s : State) (e : Event) :
    handle s e = s ∨
    ∃ td id snd, s.triggers[e.trigger]? = some td ∧ td.sound = some id ∧
      s.instances[id]? = some snd ∧
      ((snd.isPlaying = false ∧
          handle s e = updateCurrentlyPlayingText (play s id) snd.name) ∨
       (snd.isPlaying = true ∧
          handle s e = updateCurrentlyPlayingText (stop s id) "No sound playing")) := by
  cases e with
  | enter c t =>
    simp only [handle, Event.trigger]
    unfold enterAction
    cases h1 : s.triggers[t]? with
    | none => exact Or.inl rfl
    | some td =>
      dsimp only
      cases h2 : td.sound with
      | none => exact Or.inl rfl
      | some id =>
        dsimp only
        cases h3 : s.instances[id]? with
        | none => exact Or.inl rfl
        | some snd =>
          dsimp only
          cases hp : snd.isPlaying
          · exact Or.inr ⟨td, id, snd, rfl, h2, h3, Or.inl ⟨hp, by simp [hp]⟩⟩
          · exact Or.inl (by simp)
  | exit c t =>
    simp only [handle, Event.trigger]
    unfold exitAction
    cases h1 : s.triggers[t]? with
    | none => exact Or.inl rfl
    | some td =>
      dsimp only
      cases h2 : td.sound with
      | none => exact Or.inl rfl
      | some id =>
        dsimp only
        cases h3 : s.instances[id]? with
        | none => exact Or.inl rfl
        | some snd =>
          dsimp only
          cases hp : snd.isPlaying
          · exact Or.inl (by simp)
          · exact Or.inr ⟨td, id, snd, rfl, h2, h3, Or.inr ⟨hp, by simp [hp]⟩⟩

theorem boundLive_of_getElem? (s t : State) (td : TriggerData)
    (hI : ∀ j : Nat, (t.instances[j]?).map (fun x => x.disposed)
      = (s.instances[j]?).map (fun x => x.disposed))
    (h : boundLive s td = true) : boundLive t td = true := by
  unfold boundLive at h ⊢
  cases hs : td.sound with
  | none => rfl
  | some id =>
    simp only [hs] at h ⊢
    have hj := hI id
    cases h1 : s.instances[id]? with
    | none => simp [h1] at h
    | some snd =>
      simp only [h1] at h hj
      cases h2 : t.instances[id]? with
      | none => simp [h2] at hj
      | some snd2 =>
        simp only [h2, Option.map_some', Option.some.injEq] at hj
        simpa [hj] using h

theorem play_disposed (s : State) (id j : Nat) :
    ((play s id).instances[j]?).map (fun x => x.disposed)
      = (s.instances[j]?).map (fun x => x.disposed) := by
  rw [play_getElem?]
  cases s.instances[j]? with
  | none => rfl
  | some x => by_cases hj : j = id <;> cases hd : x.disposed <;> simp [hj, hd]

theorem stop_disposed (s : State) (id j : Nat) :
    ((stop s id).instances[j]?).map (fun x => x.disposed)
      = (s.instances[j]?).map (fun x => x.disposed) := by
  rw [stop_getElem?]
  cases s.instances[j]? with
  | none => rfl
  | some x => by_cases hj : j = id <;> cases hd : x.disposed <;> simp [hj, hd]

theorem liveBindings_of_step (s t : State) (ht : t.triggers = s.triggers)
    (hI : ∀ j : Nat, (t.instances[j]?).map (fun x => x.disposed)
      = (s.instances[j]?).map (fun x => x.disposed))
    (h : liveBindings s = true) : liveBindings t = true := by
  unfold liveBindings at h ⊢
  rw [ht]
  rw [List.all_eq_true] at h ⊢
  intro td htd
  exact boundLive_of_getElem? s t td hI (h td htd)

/-- A handler keeps the bindings live and the label defined; if afterwards no
bound sound plays, then either nothing changed or the label is the idle one. -/
theorem handle_idle (s : State) (e : Event) (hL : liveBindings s = true)
    (hT : s.currentlyPlayingText.isSome = true) :
    liveBindings (handle s e) = true ∧ (handle s e).currentlyPlayingText.isSome = true ∧
    (anyPlaying (handle s e) = false →
      handle s e = s ∨ (handle s e).currentlyPlayingText = some idleText) := by
  rcases handle_cases s e with h | ⟨td, id, snd, h1, h2, h3, ⟨hp, h⟩ | ⟨hp, h⟩⟩
  · rw [h]; exact ⟨hL, hT, fun _ => Or.inl rfl⟩
  · have hmem : td ∈ s.triggers := List.getElem?_mem h1
    have hlive : snd.disposed = false := by
      have := (List.all_eq_true.1 hL) td hmem
      simpa [boundLive, h2, h3] using this
    have htr : (handle s e).triggers = s.triggers := by
      rw [h, updateCurrentlyPlayingText_triggers, play_triggers]
    have hlab : (handle s e).currentlyPlayingText = some ("Currently: " ++ snd.name) := by
      rw [h]
      exact updateCurrentlyPlayingText_label _ _ (by
        rw [(fields_of_rest (play_rest s id)).2.2.2.1]; exact hT)
    refine ⟨?_, by rw [hlab]; rfl, ?_⟩
    · refine liveBindings_of_step s _ htr ?_ hL
      intro j
      rw [h, updateCurrentlyPlayingText_instances]
      exact play_disposed s id j
    · intro hno
      exfalso
      have hplay : isPlaying (handle s e) id = true := by
        unfold isPlaying
        rw [h, updateCurrentlyPlayingText_instances, play_instances_live s id snd h3 hlive,
          getElem?_set_self_of_some _ _ _ _ h3]
      have : anyPlaying (handle s e) = true := by
        unfold anyPlaying
        rw [List.any_eq_true]
        exact ⟨td, by rw [htr]; exact hmem, by simp [boundPlaying, h2, hplay]⟩
      rw [this] at hno
      cases hno
  · have htr : (handle s e).triggers = s.triggers := by
      rw [h, updateCurrentlyPlayingText_triggers, stop_triggers]
    have hlab : (handle s e).currentlyPlayingText = some idleText := by
      rw [h, ← idleText_eq]
      exact updateCurrentlyPlayingText_label _ _ (by
        rw [(fields_of_rest (stop_rest s id)).2.2.2.1]; exact hT)
    refine ⟨?_, by rw [hlab]; rfl, fun _ => Or.inr hlab⟩
    refine liveBindings_of_step s _ htr ?_ hL
    intro j
    rw [h, updateCurrentlyPlayingText_instances]
    exact stop_disposed s id j

/-- From a state with live bindings and a defined label in which an idle
stage implies an idle label, every run of events ends in such a state. -/
theorem run_idle (events : List Event) (s : State) (hL : liveBindings s = true)
    (hT : s.currentlyPlayingText.isSome = true)
    (hI : anyPlaying s = false → s.currentlyPlayingText = some idleText) :
    anyPlaying (run s events) = false → (run s events).currentlyPlayingText = some idleText := by
  induction events generalizing s with
  | nil => exact hI
  | cons e l ih =>
    rw [run_cons]
    obtain ⟨h1, h2, h3⟩ := handle_idle s e hL hT
    refine ih (handle s e) h1 h2 ?_
    intro hno
    rcases h3 hno with h | h
    · rw [h] at hno ⊢; exact hI hno
    · exact h

/-- Every bound sound other than `id` is not playing. -/
theorem others_of_step (s t : State) (id : Nat) (ht : t.triggers = s.triggers)
    (hI : ∀ j : Nat, j ≠ id → isPlaying t j = isPlaying s j)
    (hO : ∀ td ∈ s.triggers, ∀ j, td.sound = some j → j ≠ id → isPlaying s j = false) :
    ∀ td ∈ t.triggers, ∀ j, td.sound = some j → j ≠ id → isPlaying t j = false := by
  intro td htd j hj hne
  rw [hI j hne]
  exact hO td (by rw [← ht]; exact htd) j hj hne

theorem play_isPlaying_ne (s : State) (id j : Nat) (h : j ≠ id) :
    isPlaying (play s id) j = isPlaying s j := by
  unfold isPlaying
  rw [play_getElem?]
  cases s.instances[j]? with
  | none => rfl
  | some x => simp [h]

theorem stop_isPlaying_ne (s : State) (id j : Nat) (h : j ≠ id) :
    isPlaying (stop s id) j = isPlaying s j := by
  unfold isPlaying
  rw [stop_getElem?]
  cases s.instances[j]? with
  | none => rfl
  | some x => simp [h]

theorem isPlaying_updateCurrentlyPlayingText (s : State) (text : String) (j : Nat) :
    isPlaying (updateCurrentlyPlayingText s text) j = isPlaying s j := by
  unfold isPlaying
  rw [updateCurrentlyPlayingText_instances]

theorem play_label (s : State) (id : Nat) :
    (play s id).currentlyPlayingText = s.currentlyPlayingText :=
  (fields_of_rest (play_rest s id)).2.2.2.1

theorem stop_label (s : State) (id : Nat) :
    (stop s id).currentlyPlayingText = s.currentlyPlayingText :=
  (fields_of_rest (stop_rest s id)).2.2.2.1

/-- One event on the trigger bound to the live instance `id`, all other bound
sounds being silent: the label names the sound exactly when it plays. -/
theorem handle_single (s : State) (e : Event) (index id : Nat) (snd : Sound)
    (hB : BoundTo s index id snd) (hL : snd.disposed = false) (he : e.trigger = index)
    (hO : ∀ td ∈ s.triggers, ∀ j, td.sound = some j → j ≠ id → isPlaying s j = false)
    (hT : s.currentlyPlayingText =
      some (if snd.isPlaying then "Currently: " ++ snd.name else idleText)) :
    ∃ snd2, BoundTo (handle s e) index id snd2 ∧ snd2.disposed = false ∧
      snd2.name = snd.name ∧
      (∀ td ∈ (handle s e).triggers, ∀ j, td.sound = some j → j ≠ id →
        isPlaying (handle s e) j = false) ∧
      (handle s e).currentlyPlayingText =
        some (if snd2.isPlaying then "Currently: " ++ snd2.name else idleText) := by
  have hsome : s.currentlyPlayingText.isSome = true := by rw [hT]; rfl
  cases e with
  | enter c t =>
    have ht : t = index := he
    subst ht
    refine ⟨_, enterAction_live s t id snd hB hL, hL, rfl, ?_, ?_⟩
    · simp only [handle]
      rw [enterAction_eq s t id snd hB]
      cases hp : snd.isPlaying
      · simp only [Bool.false_eq_true, if_false]
        refine others_of_step s _ id ?_ ?_ hO
        · rw [updateCurrentlyPlayingText_triggers, play_triggers]
        · intro j hj
          rw [isPlaying_updateCurrentlyPlayingText, play_isPlaying_ne s id j hj]
      · simpa using hO
    · simp only [handle]
      rw [enterAction_eq s t id snd hB]
      cases hp : snd.isPlaying
      · simp only [Bool.false_eq_true, if_false, if_true]
        exact updateCurrentlyPlayingText_label _ _ (by rw [play_label]; exact hsome)
      · simpa [hp] using hT
  | exit c t =>
    have ht : t = index := he
    subst ht
    refine ⟨_, exitAction_live s t id snd hB hL, hL, rfl, ?_, ?_⟩
    · simp only [handle]
      rw [exitAction_eq s t id snd hB]
      cases hp : snd.isPlaying
      · simpa using hO
      · simp only [if_true]
        refine others_of_step s _ id ?_ ?_ hO
        · rw [updateCurrentlyPlayingText_triggers, stop_triggers]
        · intro j hj
          rw [isPlaying_updateCurrentlyPlayingText, stop_isPlaying_ne s id j hj]
    · simp only [handle]
      rw [exitAction_eq s t id snd hB]
      cases hp : snd.isPlaying
      · simpa [hp] using hT
      · simp only [if_true, Bool.false_eq_true, if_false]
        rw [← idleText_eq]
        exact updateCurrentlyPlayingText_label _ _ (by rw [stop_label]; exact hsome)

theorem run_single (events : List Event) (s : State) (index id : Nat) (snd : Sound)
    (hB : BoundTo s index id snd) (hL : snd.disposed = false)
    (hE : ∀ e ∈ events, e.trigger = index)
    (hO : ∀ td ∈ s.triggers, ∀ j, td.sound = some j → j ≠ id → isPlaying s j = false)
    (hT : s.currentlyPlayingText =
      some (if snd.isPlaying then "Currently: " ++ snd.name else idleText)) :
    ∃ snd2, BoundTo (run s events) index id snd2 ∧ snd2.name = snd.name ∧
      (∀ td ∈ (run s events).triggers, ∀ j, td.sound = some j → j ≠ id →
        isPlaying (run s events) j = false) ∧
      (run s events).currentlyPlayingText =
        some (if snd2.isPlaying then "Currently: " ++ snd2.name else idleText) := by
  induction events generalizing s snd with
  | nil => exact ⟨snd, hB, rfl, hO, hT⟩
  | cons e l ih =>
    rw [run_cons]
    obtain ⟨snd1, b1, l1, n1, o1, t1⟩ :=
      handle_single s e index id snd hB hL (hE e (by simp)) hO hT
    obtain ⟨snd2, b2, n2, o2, t2⟩ := ih (handle s e) snd1 b1 l1
      (fun x hx => hE x (by simp [hx])) o1 t1
    exact ⟨snd2, b2, n2.trans n1, o2, t2⟩

/-- When all bound sounds other than `id` are silent, some bound sound plays
exactly when the instance `id` bound to the trigger at `index` plays. -/
theorem anyPlaying_eq_of_others (s : State) (index id : Nat) (snd : Sound)
    (hB : BoundTo s index id snd)
    (hO : ∀ td ∈ s.triggers, ∀ j, td.sound = some j → j ≠ id → isPlaying s j = false) :
    anyPlaying s = snd.isPlaying := by
  have hid : isPlaying s id = snd.isPlaying := isPlaying_of_boundTo s index id snd hB
  obtain ⟨⟨td0, h0, hs0⟩, -⟩ := hB
  cases hp : snd.isPlaying
  · rw [hp] at hid
    unfold anyPlaying
    rw [List.any_eq_false]
    intro td htd
    unfold boundPlaying
    cases hs : td.sound with
    | none => simp
    | some j =>
      by_cases hj : j = id
      · subst hj; simp [hid]
      · simp [hO td htd j hs hj]
  · rw [hp] at hid
    unfold anyPlaying
    rw [List.any_eq_true]
    exact ⟨td0, List.getElem?_mem h0, by simp [boundPlaying, hs0, hid]⟩

/-- In a state where no bound sound plays, the sound bound at `index` does not
play and every other bound sound is silent. -/
theorem silent_of_anyPlaying (s : State) (hA : anyPlaying s = false) :
    ∀ td ∈ s.triggers, ∀ j, td.sound = some j → isPlaying s j = false := by
  intro td htd j hj
  unfold anyPlaying at hA
  rw [List.any_eq_false] at hA
  have := hA td htd
  simpa [boundPlaying, hj] using this

/-! ## Claims on the label and on the keys of the triggers -/

/-- C11 as stated fails, in both directions. In the started state the label
is idle and nothing plays. After controller 0 enters trigger 0, controller 1
enters trigger 1 and controller 0 leaves trigger 0, the label reads
"Currently: No sound playing" while the sound of trigger 1 plays. After
controller 0 enters trigger 0 and the collection is switched, the label still
reads "Currently: Normal Bronchial" while no bound sound plays. -/
theorem C11_counterexample :
    (startedState.currentlyPlayingText = some "Currently: No sound playing" ∧
      anyPlaying startedState = false) ∧
    ((run startedState [Event.enter 0 0, Event.enter 1 1, Event.exit 0 0]).currentlyPlayingText
        = some "Currently: No sound playing" ∧
      anyPlaying (run startedState [Event.enter 0 0, Event.enter 1 1, Event.exit 0 0]) = true) ∧
    ((loadSoundCollection (fun _ => true) (run startedState [Event.enter 0 0])
        "intermediate").1.currentlyPlayingText = some "Currently: Normal Bronchial" ∧
      anyPlaying (loadSoundCollection (fun _ => true) (run startedState [Event.enter 0 0])
        "intermediate").1 = false) := by
  decide

/-- C11, amended: from a state where the label reads "Currently: No sound
playing", nothing plays and every trigger's bound sound is live, after any
enter/exit events on any triggers from any controllers: if no trigger's bound
sound is playing, the label reads "Currently: No sound playing"; and when all
the events are on one bound trigger, whose sound is not named "No sound
playing", the label reads so if and only if no bound sound is playing. -/
theorem C11_label_idle_when_silent (s : State) (events : List Event)
    (hL : liveBindings s = true) (hT : s.currentlyPlayingText = some idleText)
    (hA : anyPlaying s = false) :
    (anyPlaying (run s events) = false → (run s events).currentlyPlayingText = some idleText) ∧
    ∀ (index id : Nat) (snd : Sound), BoundTo s index id snd →
      snd.name ≠ "No sound playing" → (∀ e ∈ events, e.trigger = index) →
      ((run s events).currentlyPlayingText = some idleText ↔
        anyPlaying (run s events) = false) := by
  refine ⟨run_idle events s hL (by rw [hT]; rfl) (fun _ => hT), ?_⟩
  intro index id snd hB hname hE
  have hsil := silent_of_anyPlaying s hA
  obtain ⟨⟨td0, h0, hs0⟩, hI⟩ := hB
  have hmem : td0 ∈ s.triggers := List.getElem?_mem h0
  have hlive : snd.disposed = false := by
    have := (List.all_eq_true.1 hL) td0 hmem
    simpa [boundLive, hs0, hI] using this
  have hnp : snd.isPlaying = false := by
    have := hsil td0 hmem id hs0
    simpa [isPlaying, hI] using this
  obtain ⟨snd2, b2, n2, o2, t2⟩ := run_single events s index id snd ⟨⟨td0, h0, hs0⟩, hI⟩ hlive hE
    (fun td htd j hj _ => hsil td htd j hj) (by simp [hnp, hT])
  rw [anyPlaying_eq_of_others (run s events) index id snd2 b2 o2, t2]
  cases hp : snd2.isPlaying
  · simp
  · simp only [if_true, Option.some.injEq, Bool.true_eq_false, iff_false]
    intro h
    rw [← idleText_eq] at h
    exact hname (n2 ▸ currently_append_inj _ _ h)

theorem C11_label_idle_when_silent_witness :
    (anyPlaying (run startedState
        [Event.enter 0 0, Event.enter 1 1, Event.exit 0 0, Event.exit 1 1]) = false →
      (run startedState
        [Event.enter 0 0, Event.enter 1 1, Event.exit 0 0, Event.exit 1 1]).currentlyPlayingText
        = some idleText) ∧
    ∀ (index id : Nat) (snd : Sound), BoundTo startedState index id snd →
      snd.name ≠ "No sound playing" →
      (∀ e ∈ [Event.enter 0 0, Event.enter 1 1, Event.exit 0 0, Event.exit 1 1],
        e.trigger = index) →
      ((run startedState
          [Event.enter 0 0, Event.enter 1 1, Event.exit 0 0, Event.exit 1 1]).currentlyPlayingText
          = some idleText ↔
        anyPlaying (run startedState
          [Event.enter 0 0, Event.enter 1 1, Event.exit 0 0, Event.exit 1 1]) = false) :=
  C11_label_idle_when_silent startedState
    [Event.enter 0 0, Event.enter 1 1, Event.exit 0 0, Event.exit 1 1]
    (by decide) (by decide) (by decide)

/-- C12 as stated fails when `createTriggerPoints` receives a map without
`lung`: the sphere `trigger2`, created for `heart`, is registered at index 0
and bound to the heart sound; a later successful switch to the intermediate
collection, which has all three keys, rebinds it by its index to the
instance stored under `lung` ("Normal Bronchial"), and rebinds `trigger3`,
created for `crackles`, to the heart sound ("Third Heart"). -/
theorem C12_counterexample :
    objGet startedWithoutLung.soundObjects "lung" = none ∧
    meshNameAt startedWithoutLung 0 = some "trigger2" ∧
    keyOfMeshName "trigger2" = some "heart" ∧
    boundInfoAt startedWithoutLung 0 = some ("Normal Heart", "assets/audio/Normal_heart.mp3") ∧
    (loadSoundCollection (fun _ => true) startedWithoutLung "intermediate").2
      = LoadResult.resolved true ∧
    meshNameAt (loadSoundCollection (fun _ => true) startedWithoutLung "intermediate").1 0
      = some "trigger2" ∧
    ((loadSoundCollection (fun _ => true) startedWithoutLung "intermediate").1.triggers[0]?).bind
        (fun td => td.sound)
      = objGet (loadSoundCollection (fun _ => true) startedWithoutLung
          "intermediate").1.soundObjects "lung" ∧
    boundInfoAt (loadSoundCollection (fun _ => true) startedWithoutLung "intermediate").1 0
      = some ("Normal Bronchial", "assets/audio/Bronchial.mp3") ∧
    meshNameAt (loadSoundCollection (fun _ => true) startedWithoutLung "intermediate").1 1
      = some "trigger3" ∧
    boundInfoAt (loadSoundCollection (fun _ => true) startedWithoutLung "intermediate").1 1
      = some ("Third Heart", "assets/audio/Third_heart.mp3") := by
  decide

/-! ## Claims on handlers whose trigger is bound to a disposed instance -/

/-- C1 as stated fails: while a switch to the intermediate collection awaits
its loads, and also after a switch in which no sound loads, trigger 0 is
bound to instance 0, which is not playing, and disposed; after the enter of
controller 0 the controller intersects the trigger and the sound's
`isPlaying` flag is still false. -/
theorem C1_counterexample :
    ((awaitingSwitch.triggers[0]?).map (fun td => td.sound) = some (some 0) ∧
      isPlaying awaitingSwitch 0 = false ∧
      isDisposed awaitingSwitch 0 = true ∧
      intersecting [Event.enter 0 0] = true ∧
      isPlaying (run awaitingSwitch [Event.enter 0 0]) 0 = false) ∧
    ((failedSwitch.triggers[0]?).map (fun td => td.sound) = some (some 0) ∧
      isPlaying failedSwitch 0 = false ∧
      isDisposed failedSwitch 0 = true ∧
      isPlaying (run failedSwitch [Event.enter 0 0]) 0 = false) := by
  decide

/-- C8 as stated fails: while a switch to the intermediate collection awaits
its loads, trigger 0 is bound to the disposed instance 0, which is not
playing; the enters of controllers 0 and 1 issue two play calls in a row on
it, so the play and stop calls on that sound do not alternate. -/
theorem C8_counterexample :
    (awaitingSwitch.triggers[0]?).map (fun td => td.sound) = some (some 0) ∧
    isPlaying awaitingSwitch 0 = false ∧
    (run awaitingSwitch [Event.enter 0 0, Event.enter 1 0]).calls
      = awaitingSwitch.calls ++ [Call.play 0, Call.play 0] ∧
    alternates true (playStopCalls 0 [Call.play 0, Call.play 0]) = false := by
  decide

/-! ## Lemmas on the registered spheres -/

theorem createdFromFull_of_shape (s t : State)
    (h1 : t.triggers.map (fun td => td.trigger) = s.triggers.map (fun td => td.trigger))
    (h2 : ∀ j : Nat, (t.meshes[j]?).map (fun m => m.name) = (s.meshes[j]?).map (fun m => m.name))
    (h : CreatedFromFull s) : CreatedFromFull t := by
  have e : ∀ u : State,
      u.triggers.map (fun td => (u.meshes[td.trigger]?).map (fun m => m.name)) =
        (u.triggers.map (fun td => td.trigger)).map
          (fun j => (u.meshes[j]?).map (fun m => m.name)) := by
    intro u
    rw [List.map_map]
    rfl
  unfold CreatedFromFull at h ⊢
  rw [e] at h ⊢
  rw [h1, funext h2]
  exact h

theorem updateCurrentlyPlayingText_meshes (s : State) (text : String) :
    (updateCurrentlyPlayingText s text).meshes = s.meshes := by
  unfold updateCurrentlyPlayingText; cases s.currentlyPlayingText <;> rfl

theorem handle_shape (s : State) (e : Event) :
    (handle s e).triggers = s.triggers ∧ (handle s e).meshes = s.meshes := by
  rcases handle_cases s e with h | ⟨td, id, snd, -, -, -, ⟨-, h⟩ | ⟨-, h⟩⟩
  · rw [h]; exact ⟨rfl, rfl⟩
  · rw [h, updateCurrentlyPlayingText_triggers, updateCurrentlyPlayingText_meshes]
    exact ⟨play_triggers s id, (fields_of_rest (play_rest s id)).2.2.2.2.2.2.2.2⟩
  · rw [h, updateCurrentlyPlayingText_triggers, updateCurrentlyPlayingText_meshes]
    exact ⟨stop_triggers s id, (fields_of_rest (stop_rest s id)).2.2.2.2.2.2.2.2⟩

theorem rebound_trigger (so : List (String × Nat)) (i : Nat) (td : TriggerData) :
    (rebound so i td).trigger = td.trigger := by
  unfold rebound
  cases (soundKeyOfIndex i).bind (objGet so) <;> rfl

theorem updateTriggerSounds_shape (s : State) :
    (updateTriggerSounds s).triggers.map (fun td => td.trigger)
      = s.triggers.map (fun td => td.trigger) ∧
    (updateTriggerSounds s).meshes = s.meshes := by
  refine ⟨?_, (fields_of_globals (updateTriggerSounds_rebinds s).1).2.2.2.2.2.2.2⟩
  apply List.ext_getElem?
  intro n
  rw [List.getElem?_map, List.getElem?_map, updateTriggerSounds_getElem?]
  cases s.triggers[n]? with
  | none => rfl
  | some td => simp [rebound_trigger]

/-- Every task keeps the registered spheres: the same meshes, under the same
names, in the same order. -/
theorem act_createdFromFull (s : State) (a : Action) (h : CreatedFromFull s) :
    CreatedFromFull (act s a) := by
  cases a with
  | event e =>
    obtain ⟨h1, h2⟩ := handle_shape s e
    exact createdFromFull_of_shape s _ (by rw [show act s (Action.event e) = handle s e from rfl, h1])
      (fun j => by rw [show act s (Action.event e) = handle s e from rfl, h2]) h
  | toggle =>
    have hpress : act s Action.toggle =
        s.triggers.foldl (fun st td => setVisible st td.trigger (!s.triggersVisible))
          { s with triggersVisible := !s.triggersVisible,
                   visibilityText := some (visibilityLabel (!s.triggersVisible)) } := rfl
    obtain ⟨-, -, -, -, -, h6, -, -⟩ := foldl_setVisible_frame s.triggers
      { s with triggersVisible := !s.triggersVisible,
               visibilityText := some (visibilityLabel (!s.triggersVisible)) } (!s.triggersVisible)
    have hm := foldl_setVisible_getElem? s.triggers
      { s with triggersVisible := !s.triggersVisible,
               visibilityText := some (visibilityLabel (!s.triggersVisible)) } (!s.triggersVisible)
    refine createdFromFull_of_shape s _ (by rw [hpress, h6]) ?_ h
    intro j
    rw [hpress, hm j]
    cases s.meshes[j]? with
    | none => rfl
    | some m =>
      by_cases hj : j ∈ s.triggers.map (fun td => td.trigger) <;> simp [hj]
  | loadStart name =>
    obtain ⟨h1, h2, -⟩ := loadSoundCollectionStart_effects s name
    exact createdFromFull_of_shape s _
      (by rw [show act s (Action.loadStart name)
        = (loadSoundCollectionStart SOUND_COLLECTIONS s name).1 from rfl, h1])
      (fun j => by rw [show act s (Action.loadStart name)
        = (loadSoundCollectionStart SOUND_COLLECTIONS s name).1 from rfl, h2]) h
  | loadResume allLoaded =>
    cases allLoaded with
    | false => exact h
    | true =>
      obtain ⟨h1, h2⟩ := updateTriggerSounds_shape s
      exact createdFromFull_of_shape s _
        (by rw [show act s (Action.loadResume true) = updateTriggerSounds s from rfl, h1])
        (fun j => by rw [show act s (Action.loadResume true) = updateTriggerSounds s from rfl, h2])
        h

theorem runActions_createdFromFull (actions : List Action) (s : State)
    (h : CreatedFromFull s) : CreatedFromFull (runActions s actions) := by
  induction actions generalizing s with
  | nil => exact h
  | cons a l ih => exact ih (act s a) (act_createdFromFull s a h)

/-- The records and spheres `createTriggerPoints` adds when the map has the
three keys. -/
theorem createTriggerPoints_full_fields (s : State) (im : Nat) (objs : List (String × Nat))
    (a b c : Nat) (ha : objGet objs "lung" = some a) (hb : objGet objs "heart" = some b)
    (hc : objGet objs "crackles" = some c) :
    (createTriggerPoints s im objs).triggers = s.triggers ++
      [{ trigger := s.meshes.length, sound := some a, isIntersecting := false },
       { trigger := s.meshes.length + 1, sound := some b, isIntersecting := false },
       { trigger := s.meshes.length + 2, sound := some c, isIntersecting := false }] ∧
    (createTriggerPoints s im objs).meshes = s.meshes ++
      [{ name := "trigger1", parent := some im, isVisible := s.triggersVisible },
       { name := "trigger2", parent := some im, isVisible := s.triggersVisible },
       { name := "trigger3", parent := some im, isVisible := s.triggersVisible }] := by
  unfold createTriggerPoints
  dsimp only
  obtain ⟨t1, m1⟩ := createTriggerPoint_fields s im objs "trigger1" "lung" a ha
  obtain ⟨t2, m2⟩ := createTriggerPoint_fields
    (createTriggerPoint s im objs "trigger1" "lung") im objs "trigger2" "heart" b hb
  obtain ⟨t3, m3⟩ := createTriggerPoint_fields
    (createTriggerPoint (createTriggerPoint s im objs "trigger1" "lung") im objs
      "trigger2" "heart") im objs "trigger3" "crackles" c hc
  have v1 := createTriggerPoint_triggersVisible s im objs "trigger1" "lung"
  have v2 := createTriggerPoint_triggersVisible
    (createTriggerPoint s im objs "trigger1" "lung") im objs "trigger2" "heart"
  refine ⟨?_, ?_⟩
  · rw [t3, m2, t2, m1, t1]
    simp [List.append_assoc]
  · rw [m3, m2, m1, v2, v1]
    simp [List.append_assoc]

/-- In a state whose registered spheres are the three of `createTriggerPoints`
and whose `sounds.soundObjects` has the three keys, `updateTriggerSounds`
rebinds each trigger to the sound under the key of its sphere, which is the
key of its index. -/
theorem updateTriggerSounds_keys (t : State) (x y z : Nat) (hT : CreatedFromFull t)
    (hx : objGet t.soundObjects "lung" = some x) (hy : objGet t.soundObjects "heart" = some y)
    (hz : objGet t.soundObjects "crackles" = some z) :
    (updateTriggerSounds t).triggers.length = 3 ∧
    ∀ (i : Nat) (td : TriggerData), (updateTriggerSounds t).triggers[i]? = some td →
      ∃ (m : Mesh) (key : String) (sound : Nat),
        (updateTriggerSounds t).meshes[td.trigger]? = some m ∧
        keyOfMeshName m.name = some key ∧
        soundKeyOfIndex i = some key ∧
        objGet (updateTriggerSounds t).soundObjects key = some sound ∧
        td.sound = some sound := by
  obtain ⟨hsh, hme⟩ := updateTriggerSounds_shape t
  have hso := soundObjects_of_rebinds (updateTriggerSounds_rebinds t)
  have hlen : (updateTriggerSounds t).triggers.length = 3 := by
    have h1 := congrArg List.length hsh
    have h2 := congrArg List.length hT
    simp only [CreatedFromFull, List.length_map, List.length_cons, List.length_nil] at h1 h2
    omega
  refine ⟨hlen, ?_⟩
  unfold CreatedFromFull at hT
  rcases hs : t.triggers with _ | ⟨ta, _ | ⟨tb, _ | ⟨tc, _ | ⟨td4, r⟩⟩⟩⟩ <;>
    simp only [hs, List.map_cons, List.map_nil, List.cons.injEq, and_true, reduceCtorEq,
      and_false] at hT
  obtain ⟨ha, hb, hcc⟩ := hT
  obtain ⟨ma, hma, hna⟩ := Option.map_eq_some'.1 ha
  obtain ⟨mb, hmb, hnb⟩ := Option.map_eq_some'.1 hb
  obtain ⟨mc, hmc, hnc⟩ := Option.map_eq_some'.1 hcc
  intro i td hi
  rw [updateTriggerSounds_getElem?, hs] at hi
  rw [hme, hso]
  match i, hi with
  | 0, hi =>
    simp only [List.getElem?_cons_zero, Option.map_some', Option.some.injEq] at hi
    subst hi
    refine ⟨ma, "lung", x, by rw [rebound_trigger]; exact hma, by simp [hna, keyOfMeshName],
      rfl, hx, ?_⟩
    simp [rebound, soundKeyOfIndex, hx]
  | 1, hi =>
    simp only [List.getElem?_cons_succ, List.getElem?_cons_zero, Option.map_some',
      Option.some.injEq] at hi
    subst hi
    refine ⟨mb, "heart", y, by rw [rebound_trigger]; exact hmb, by simp [hnb, keyOfMeshName],
      rfl, hy, ?_⟩
    simp [rebound, soundKeyOfIndex, hy]
  | 2, hi =>
    simp only [List.getElem?_cons_succ, List.getElem?_cons_zero, Option.map_some',
      Option.some.injEq] at hi
    subst hi
    refine ⟨mc, "crackles", z, by rw [rebound_trigger]; exact hmc,
      by simp [hnc, keyOfMeshName], rfl, hz, ?_⟩
    simp [rebound, soundKeyOfIndex, hz]
  | (j + 3), hi =>
    simp at hi

/-! ## Claim on the keys of the triggers, for a full map -/

/-- C12, amended: for every `soundObjects` map with `lung`, `heart` and
`crackles` passed to `createTriggerPoints` on a scene without triggers, each
trigger is created bound to the sound under the key of its sphere (`trigger1`
to `lung`, `trigger2` to `heart`, `trigger3` to `crackles`); and after any
later tasks (intersection events, presses of the visibility button, starts
and continuations of collection loads), every `updateTriggerSounds` against a
`sounds.soundObjects` with the three keys rebinds each of the three triggers
to the sound under that same key: the key of its index is the key of its
sphere. -/
theorem C12_full_map_keys_agree (s : State) (importedMesh : Nat)
    (soundObjects : List (String × Nat)) (a b c : Nat) (hs : s.triggers = [])
    (ha : objGet soundObjects "lung" = some a) (hb : objGet soundObjects "heart" = some b)
    (hc : objGet soundObjects "crackles" = some c) :
    (∀ (i : Nat) (td : TriggerData),
      (createTriggerPoints s importedMesh soundObjects).triggers[i]? = some td →
      ∃ (m : Mesh) (key : String) (sound : Nat),
        (createTriggerPoints s importedMesh soundObjects).meshes[td.trigger]? = some m ∧
        keyOfMeshName m.name = some key ∧
        soundKeyOfIndex i = some key ∧
        objGet soundObjects key = some sound ∧
        td.sound = some sound) ∧
    ∀ (actions : List Action) (x y z : Nat),
      objGet (runActions (createTriggerPoints s importedMesh soundObjects) actions).soundObjects
        "lung" = some x →
      objGet (runActions (createTriggerPoints s importedMesh soundObjects) actions).soundObjects
        "heart" = some y →
      objGet (runActions (createTriggerPoints s importedMesh soundObjects) actions).soundObjects
        "crackles" = some z →
      (updateTriggerSounds
        (runActions (createTriggerPoints s importedMesh soundObjects) actions)).triggers.length
        = 3 ∧
      ∀ (i : Nat) (td : TriggerData),
        (updateTriggerSounds
          (runActions (createTriggerPoints s importedMesh soundObjects) actions)).triggers[i]?
          = some td →
        ∃ (m : Mesh) (key : String) (sound : Nat),
          (updateTriggerSounds
            (runActions (createTriggerPoints s importedMesh soundObjects)
              actions)).meshes[td.trigger]? = some m ∧
          keyOfMeshName m.name = some key ∧
          soundKeyOfIndex i = some key ∧
          objGet (updateTriggerSounds
            (runActions (createTriggerPoints s importedMesh soundObjects)
              actions)).soundObjects key = some sound ∧
          td.sound = some sound := by
  refine ⟨?_, ?_⟩
  · obtain ⟨ht, hm⟩ := createTriggerPoints_full_fields s importedMesh soundObjects a b c ha hb hc
    obtain ⟨g0, g1, g2⟩ := getElem?_append_three s.meshes
      { name := "trigger1", parent := some importedMesh, isVisible := s.triggersVisible }
      { name := "trigger2", parent := some importedMesh, isVisible := s.triggersVisible }
      { name := "trigger3", parent := some importedMesh, isVisible := s.triggersVisible }
      s.meshes.length rfl
    intro i td hi
    rw [ht, hs] at hi
    rw [hm]
    match i, hi with
    | 0, hi =>
      simp only [List.nil_append, List.getElem?_cons_zero, Option.some.injEq] at hi
      subst hi
      exact ⟨_, "lung", a, g0, by simp [keyOfMeshName], rfl, ha, rfl⟩
    | 1, hi =>
      simp only [List.nil_append, List.getElem?_cons_succ, List.getElem?_cons_zero,
        Option.some.injEq] at hi
      subst hi
      exact ⟨_, "heart", b, g1, by simp [keyOfMeshName], rfl, hb, rfl⟩
    | 2, hi =>
      simp only [List.nil_append, List.getElem?_cons_succ, List.getElem?_cons_zero,
        Option.some.injEq] at hi
      subst hi
      exact ⟨_, "crackles", c, g2, by simp [keyOfMeshName], rfl, hc, rfl⟩
    | (j + 3), hi =>
      simp at hi
  · intro actions x y z hx hy hz
    exact updateTriggerSounds_keys _ x y z
      (runActions_createdFromFull actions _
        (createTriggerPoints_createdFromFull s importedMesh soundObjects a b c hs ha hb hc))
      hx hy hz

theorem C12_full_map_keys_agree_witness :
    (updateTriggerSounds
      (runActions (createTriggerPoints uiState 0 uiState.soundObjects)
        [Action.event (Event.enter 0 0), Action.toggle,
          Action.loadStart "intermediate"])).triggers.length = 3 ∧
    ∀ (i : Nat) (td : TriggerData),
      (updateTriggerSounds
        (runActions (createTriggerPoints uiState 0 uiState.soundObjects)
          [Action.event (Event.enter 0 0), Action.toggle,
            Action.loadStart "intermediate"])).triggers[i]? = some td →
      ∃ (m : Mesh) (key : String) (sound : Nat),
        (updateTriggerSounds
          (runActions (createTriggerPoints uiState 0 uiState.soundObjects)
            [Action.event (Event.enter 0 0), Action.toggle,
              Action.loadStart "intermediate"])).meshes[td.trigger]? = some m ∧
        keyOfMeshName m.name = some key ∧
        soundKeyOfIndex i = some key ∧
        objGet (updateTriggerSounds
          (runActions (createTriggerPoints uiState 0 uiState.soundObjects)
            [Action.event (Event.enter 0 0), Action.toggle,
              Action.loadStart "intermediate"])).soundObjects key = some sound ∧
        td.sound = some sound :=
  (C12_full_map_keys_agree uiState 0 uiState.soundObjects 0 1 2
    (by decide) (by decide) (by decide) (by decide)).2
    [Action.event (Event.enter 0 0), Action.toggle, Action.loadStart "intermediate"] 3 4 5
    (by decide) (by decide) (by decide)

end VAT
